import Mathlib

/-!
# MY17 vehicle control unit: `Dispatch_Controller`

A shallow embedding of `src/Vcu/Dispatch_Controller.cpp` and a verification of
its natural-language specification.

The coordinator is a singleton whose member functions mutate its two fields
(`begun`, `enabled`) and talk to collaborators: the CAN transport, the
ready-to-drive controller, five message handlers, the state store, three log
sinks, the raw pins and the `SoftTimer` scheduler.  Every member function is
embedded as a function `State → State`; a call of a collaborator appends an
`Event` to `State.trace`, in program order.

Member functions reach the coordinator through `Dispatcher()`; while a member
function runs, the singleton exists and is the object the function runs on, so
`Dispatcher()` is the identity there and has no effect of its own.
-/

namespace MY17

/-! ## Constants of `Dispatch_Controller.cpp` -/

/-- Source line 13: `const int BLINK_LIGHT = 0;` -/
def BLINK_LIGHT : Nat := 0

/-- Source line 14: `const int ENABLE_LIGHT = 1;` -/
def ENABLE_LIGHT : Nat := 1

/-- Source line 15: `const int SHUTDOWN_LIGHT = 2;` -/
def SHUTDOWN_LIGHT : Nat := 2

/-- Source line 17: `const uint16_t PRECHARGE_DELAY = 15000;` -/
def PRECHARGE_DELAY : Nat := 15000

/-- Arduino's `LOW`, the value `digitalRead` is compared with. -/
def LOW : Int := 0

/-- Arduino's `HIGH`. -/
def HIGH : Int := 1

/-- Identifiers that the source takes from headers outside `src/`; their values
are not known, so every function that uses one takes them as a parameter. -/
structure Constants where
  VCU_ID : Nat
  LEFT_MOTOR_REQUEST_ID : Nat
  RIGHT_MOTOR_REQUEST_ID : Nat
  deriving DecidableEq, Repr

/-! ## Data model -/

/-- The input pins named in the source; their numbers come from a header
outside `src/` and stay symbolic. -/
inductive Pin where
  | BMS_IN
  | IMD_IN
  | VCU_IN
  | TEMP_SENSE_IN
  | STOP_BUTTON_IN
  | BMS_POWERED_IN
  deriving DecidableEq, Repr

/-- A CAN frame as the source builds it, `{ .id=…, .body={b}, .len=… }`:
`body` holds the initialised payload bytes. -/
structure Frame where
  id : Nat
  body : List Nat
  len : Nat
  deriving DecidableEq, Repr

/-- The five handler members of the coordinator (header lines 27 to 31). -/
inductive Handler where
  | rtd_handler
  | can_node_handler
  | bms_handler
  | motor_handler
  | current_sense_handler
  deriving DecidableEq, Repr

/-- The three log sinks, `Computer()`, `Onboard()` and `Xbee()`. -/
inductive LogSink where
  | Computer
  | Onboard
  | Xbee
  deriving DecidableEq, Repr

/-- The six task objects declared at file scope (source lines 35 to 70). -/
inductive Task where
  | stepTask
  | checkFaultsTask
  | heartbeatTask
  | requestLeftMotorUpdatesTask
  | requestRightMotorUpdatesTask
  | requestBlinkDashLight
  deriving DecidableEq, Repr

/-- The first constructor argument of each task object: the period of a `Task`,
the delay of a `DelayRun`, in milliseconds. -/
def Task.periodMs : Task → Nat
  | .stepTask => 0
  | .checkFaultsTask => 100
  | .heartbeatTask => 100
  | .requestLeftMotorUpdatesTask => 50
  | .requestRightMotorUpdatesTask => 100
  | .requestBlinkDashLight => PRECHARGE_DELAY

/-- Whether the task object is declared as a `DelayRun` (a one-shot delayed
task) rather than as a periodic `Task`. -/
def Task.isDelayRun : Task → Bool
  | .stepTask => false
  | .checkFaultsTask => false
  | .heartbeatTask => false
  | .requestLeftMotorUpdatesTask => true
  | .requestRightMotorUpdatesTask => true
  | .requestBlinkDashLight => true

/-- One call of a collaborator, as the coordinator makes it. -/
inductive Event where
  | CAN_begin
  | RTD_begin
  | RTD_enable
  | RTD_disable
  | handler_begin (h : Handler)
  | handleMessage (h : Handler) (frame : Frame)
  | CAN_write (frame : Frame)
  | requestHeartbeat
  | requestPermanentUpdates (id : Nat)
  | pinMode_INPUT (pin : Pin)
  | logOne (sink : LogSink) (msg : String)
  | logTwo (sink : LogSink) (key : String) (value : String)
  | SoftTimer_add (t : Task)
  | SoftTimer_remove (t : Task)
  | startDelayed (t : Task)
  | logHasFault (hasFault : Bool)
  deriving DecidableEq, Repr

/-- The member functions of the coordinator whose entries are counted. -/
inductive Method where
  | begin
  | disable
  | enable
  | dispatch
  | handleFaultPins
  | requestMotorHeartbeat
  | requestLeftMotorUpdates
  | requestRightMotorUpdates
  deriving DecidableEq, Repr

/-- The fields of the coordinator object (header lines 32 and 33); the handler
members carry no state of their own here, their calls appear in the trace. -/
structure Dispatch_Controller where
  begun : Bool
  enabled : Bool
  deriving DecidableEq, Repr

/-- Modelled from the spec: the state store `Store()`, whose class is outside
`src/`. It holds the persisted `hasFault` flag and the per-motor "has
responded" flags, each with a getter and a setter. -/
structure Store_Controller where
  hasFault : Bool
  leftMotor : Bool
  rightMotor : Bool
  deriving DecidableEq, Repr

/-- Modelled from the spec: the scheduler `SoftTimer`, whose class is outside
`src/`. It has a millisecond clock and the list of registered tasks, each
with the clock value at which it was armed. -/
structure SoftTimerClass where
  millis : Nat
  tasks : List (Task × Nat)
  deriving DecidableEq, Repr

/-- The coordinator together with everything it reads and writes.

`trace` lists the calls made to collaborators, oldest first. `calls` and
`pinReads` are ghost fields: they record the entries into the coordinator's own
member functions and the pins passed to `digitalRead`, which the program itself
does not store. -/
structure State where
  dc : Dispatch_Controller
  store : Store_Controller
  timer : SoftTimerClass
  rx : List Frame
  trace : List Event
  calls : List Method
  pinReads : List Pin
  deriving DecidableEq, Repr

/-! ## Collaborators -/

/-- Append one collaborator call to the trace. -/
def State.emit (e : Event) (s : State) : State :=
  { s with trace := s.trace ++ [e] }

/-- Ghost: record the entry into a member function. -/
def State.enter (m : Method) (s : State) : State :=
  { s with calls := s.calls ++ [m] }

/-- The collaborator calls made between an earlier state and a later one. -/
def State.emittedSince (later earlier : State) : List Event :=
  later.trace.drop earlier.trace.length

/-- The member functions entered between an earlier state and a later one. -/
def State.enteredSince (later earlier : State) : List Method :=
  later.calls.drop earlier.calls.length

/-- The pins read between an earlier state and a later one. -/
def State.readSince (later earlier : State) : List Pin :=
  later.pinReads.drop earlier.pinReads.length

/-- Call `CAN().write(frame)`. -/
def CAN_write (frame : Frame) (s : State) : State :=
  s.emit (.CAN_write frame)

/-- Modelled from the spec: `Store().readHasFault()`, the getter of the
persisted fault flag. -/
def Store_readHasFault (s : State) : Bool :=
  s.store.hasFault

/-- Modelled from the spec: `Store().logHasFault(b)`, the setter of the
persisted fault flag. -/
def Store_logHasFault (b : Bool) (s : State) : State :=
  { s with store := { s.store with hasFault := b } }.emit (.logHasFault b)

/-- The two keys of `Store().readMotorResponse`. -/
inductive MotorSide where
  | LeftMotor
  | RightMotor
  deriving DecidableEq, Repr

/-- Modelled from the spec: `Store().readMotorResponse(side)`, the getter of a
motor's "has responded" flag. -/
def Store_readMotorResponse (side : MotorSide) (s : State) : Bool :=
  match side with
  | .LeftMotor => s.store.leftMotor
  | .RightMotor => s.store.rightMotor

/-- Modelled from the spec: `SoftTimer.remove(&t)` cancels the task; removing a
task that is not registered changes nothing. -/
def SoftTimerClass.remove (t : Task) (st : SoftTimerClass) : SoftTimerClass :=
  { st with tasks := st.tasks.filter (fun e => decide (e.1 ≠ t)) }

/-- Modelled from the spec: `SoftTimer.add(&t)` registers the task, once, armed
at the current clock value, so that it runs after its period or delay. -/
def SoftTimerClass.add (t : Task) (st : SoftTimerClass) : SoftTimerClass :=
  { st with tasks := (st.remove t).tasks ++ [(t, st.millis)] }

/-- Modelled from the spec: the earliest clock value at which the scheduler
may run a task, its arming time plus its period or delay; `none` when the task
is not registered. -/
def SoftTimerClass.dueAt (t : Task) (st : SoftTimerClass) : Option Nat :=
  (st.tasks.find? (fun e => decide (e.1 = t))).map (fun e => e.2 + t.periodMs)

/-- Whether a task is registered with the scheduler. -/
def SoftTimerClass.registered (t : Task) (st : SoftTimerClass) : Bool :=
  st.tasks.any (fun e => decide (e.1 = t))

/-- Modelled from the spec: whether the scheduler may run the task at the given
clock value, which is when the task is registered and its period or delay has
elapsed since it was armed. -/
def SoftTimerClass.mayFire (t : Task) (now : Nat) (st : SoftTimerClass) : Bool :=
  st.tasks.any (fun e => decide (e.1 = t) && decide (e.2 + t.periodMs ≤ now))

/-- Call `SoftTimer.remove(&t)`. -/
def SoftTimer_remove (t : Task) (s : State) : State :=
  { s with timer := s.timer.remove t }.emit (.SoftTimer_remove t)

/-- Call `SoftTimer.add(&t)`. -/
def SoftTimer_add (t : Task) (s : State) : State :=
  { s with timer := s.timer.add t }.emit (.SoftTimer_add t)

/-- Modelled from the spec: `t.startDelayed()` of a `DelayRun` arms the task
with its delay counted from the current clock value. -/
def DelayRun_startDelayed (t : Task) (s : State) : State :=
  { s with timer := s.timer.add t }.emit (.startDelayed t)

/-! ## Member functions of `Dispatch_Controller` -/

/-- Source lines 19 to 29: the constructor sets `begun` and `enabled` to
false. -/
def Dispatch_Controller.new : Dispatch_Controller :=
  { begun := false, enabled := false }

/-- Source lines 140 to 142. -/
def isEnabled (s : State) : Bool :=
  s.dc.enabled

/-- Source lines 87 to 89. -/
def requestLeftMotorUpdates (k : Constants) (s : State) : State :=
  (s.enter .requestLeftMotorUpdates).emit (.requestPermanentUpdates k.LEFT_MOTOR_REQUEST_ID)

/-- Source lines 90 to 92. -/
def requestRightMotorUpdates (k : Constants) (s : State) : State :=
  (s.enter .requestRightMotorUpdates).emit (.requestPermanentUpdates k.RIGHT_MOTOR_REQUEST_ID)

/-- Source lines 49 to 52, the callback of `requestLeftMotorUpdatesTask`. -/
def requestPermanentUpdatesLeft (k : Constants) (s : State) : Bool × State :=
  (false, requestLeftMotorUpdates k s)

/-- Source lines 55 to 58, the callback of `requestRightMotorUpdatesTask`. -/
def requestPermanentUpdatesRight (k : Constants) (s : State) : Bool × State :=
  (false, requestRightMotorUpdates k s)

/-- Source lines 61 to 68, the callback of `requestBlinkDashLight`. -/
def blinkDashLight (k : Constants) (s : State) : Bool × State :=
  let s1 :=
    if !isEnabled s then
      CAN_write { id := k.VCU_ID, body := [BLINK_LIGHT], len := 1 } s
    else s
  (false, s1)

/-- Source lines 72 to 85. -/
def requestMotorHeartbeat (s : State) : State :=
  let s := s.enter .requestMotorHeartbeat
  let bothMcOn :=
    Store_readMotorResponse .RightMotor s && Store_readMotorResponse .LeftMotor s
  if !bothMcOn then
    s.emit .requestHeartbeat
  else
    let s := SoftTimer_remove .heartbeatTask s
    let s := SoftTimer_add .requestLeftMotorUpdatesTask s
    SoftTimer_add .requestRightMotorUpdatesTask s

/-- Source lines 238 to 245. -/
def initializeFaultPins (s : State) : State :=
  let s := s.emit (.pinMode_INPUT .BMS_IN)
  let s := s.emit (.pinMode_INPUT .IMD_IN)
  let s := s.emit (.pinMode_INPUT .VCU_IN)
  let s := s.emit (.pinMode_INPUT .TEMP_SENSE_IN)
  let s := s.emit (.pinMode_INPUT .STOP_BUTTON_IN)
  s.emit (.pinMode_INPUT .BMS_POWERED_IN)

/-- Source lines 94 to 123. -/
def begin (s : State) : State :=
  let s := s.enter .begin
  if s.dc.begun then s
  else
    let s := { s with dc := { s.dc with begun := true } }
    let s := s.emit .CAN_begin
    let s := s.emit .RTD_begin
    let s := s.emit (.handler_begin .rtd_handler)
    let s := s.emit (.handler_begin .can_node_handler)
    let s := s.emit (.handler_begin .bms_handler)
    let s := s.emit (.handler_begin .motor_handler)
    let s := initializeFaultPins s
    let s := SoftTimer_add .stepTask s
    let s := SoftTimer_add .checkFaultsTask s
    let s := SoftTimer_add .heartbeatTask s
    let s := s.emit (.logOne .Computer "vehicle_power_on")
    let s := s.emit (.logOne .Onboard "vehicle_power_on")
    s.emit (.logOne .Xbee "vehicle_power_on")

/-- Source lines 144 to 159. -/
def disable (k : Constants) (s : State) : State :=
  let s := s.enter .disable
  if !s.dc.enabled then s
  else
    let s := { s with dc := { s.dc with enabled := false } }
    let s := s.emit .RTD_disable
    let s := CAN_write { id := k.VCU_ID, body := [BLINK_LIGHT], len := 1 } s
    let s := s.emit (.logOne .Computer "vehicle_disabled_or_shutdown")
    s.emit (.logOne .Onboard "vehicle_disabled_or_shutdown")

/-- Source lines 161 to 181. -/
def enable (k : Constants) (s : State) : State :=
  let s := s.enter .enable
  if s.dc.enabled then s
  else
    let s := { s with dc := { s.dc with enabled := true } }
    let s := s.emit .RTD_enable
    let s := CAN_write { id := k.VCU_ID, body := [ENABLE_LIGHT], len := 1 } s
    let s := requestRightMotorUpdates k s
    let s := requestLeftMotorUpdates k s
    let s := s.emit (.logOne .Computer "vehicle_enabled")
    s.emit (.logOne .Onboard "vehicle_enabled")

/-- The body of the loop of `dispatch` for one frame (source lines 189 to
193): the frame goes to each handler in turn. -/
def dispatchFrame (frame : Frame) (s : State) : State :=
  let s := s.emit (.handleMessage .rtd_handler frame)
  let s := s.emit (.handleMessage .bms_handler frame)
  let s := s.emit (.handleMessage .can_node_handler frame)
  let s := s.emit (.handleMessage .motor_handler frame)
  s.emit (.handleMessage .current_sense_handler frame)

/-- The loop of `dispatch` (source lines 185 to 194) over the receive queue.
The transport class is outside `src/`; as the spec describes it,
`CAN().msgAvailable()` holds while a frame is queued and `CAN().read()` takes
the oldest one. A handler appends to the trace and does not enqueue frames, so
the loop recurses on the queue. -/
def dispatchLoop : List Frame → State → State
  | [], s => { s with rx := [] }
  | frame :: rest, s => dispatchLoop rest (dispatchFrame frame { s with rx := rest })

/-- Source lines 183 to 195. -/
def dispatch (s : State) : State :=
  let s := s.enter .dispatch
  dispatchLoop s.rx s

/-- Source lines 229 to 236; the first argument is the environment's
`digitalRead`. -/
def handleSingleFaultPin (digitalRead : Pin → Int) (pin : Pin) (pinName : String)
    (s : State) : Bool × State :=
  let fault := digitalRead pin
  let s := { s with pinReads := s.pinReads ++ [pin] }
  if fault = LOW then
    (true, s.emit (.logTwo .Onboard "LATCHED_FAULT" pinName))
  else
    (false, s)

/-- Source lines 197 to 227; the second argument is the environment's
`digitalRead`. -/
def handleFaultPins (k : Constants) (digitalRead : Pin → Int) (s : State) : State :=
  let s := s.enter .handleFaultPins
  let bms := handleSingleFaultPin digitalRead .BMS_IN "BMS" s
  let imd := handleSingleFaultPin digitalRead .IMD_IN "IMD" bms.2
  let temp := handleSingleFaultPin digitalRead .TEMP_SENSE_IN "TEMP_SENSE" imd.2
  let stop := handleSingleFaultPin digitalRead .STOP_BUTTON_IN "STOP_BUTTON" temp.2
  let bmsPower := handleSingleFaultPin digitalRead .BMS_POWERED_IN "BMS_NOT_POWERED" stop.2
  let s := bmsPower.2
  let hasFault := bms.1 || imd.1 || temp.1 || stop.1 || bmsPower.1
  let prevHasFault := Store_readHasFault s
  let s :=
    if hasFault && !prevHasFault then
      let s := disable k s
      let s := CAN_write { id := k.VCU_ID, body := [SHUTDOWN_LIGHT], len := 1 } s
      SoftTimer_remove .requestBlinkDashLight s
    else if !hasFault && prevHasFault then
      let s := SoftTimer_remove .requestBlinkDashLight s
      let s := DelayRun_startDelayed .requestBlinkDashLight s
      SoftTimer_add .requestBlinkDashLight s
    else s
  Store_logHasFault hasFault s

/-! ## Vocabulary of the specification -/

/-- A fault line is asserted when its reading is `LOW`. -/
def asserted (digitalRead : Pin → Int) (pin : Pin) : Bool :=
  decide (digitalRead pin = LOW)

/-- The logical OR of "line reads LOW" over the five fault lines. -/
def anyAsserted (digitalRead : Pin → Int) : Bool :=
  asserted digitalRead .BMS_IN || asserted digitalRead .IMD_IN ||
    asserted digitalRead .TEMP_SENSE_IN || asserted digitalRead .STOP_BUTTON_IN ||
    asserted digitalRead .BMS_POWERED_IN

/-- The event is a scheduler call (add, remove or re-arm). -/
def Event.isTimerCall : Event → Bool
  | .SoftTimer_add _ => true
  | .SoftTimer_remove _ => true
  | .startDelayed _ => true
  | _ => false

/-- The frames written to the transport, in order. -/
def framesWritten : List Event → List Frame
  | [] => []
  | .CAN_write f :: es => f :: framesWritten es
  | _ :: es => framesWritten es

/-- The latched-fault log events of one poll: one for each asserted line, in
the order BMS, IMD, TEMP_SENSE, STOP_BUTTON, BMS_NOT_POWERED. -/
def faultLog (digitalRead : Pin → Int) : List Event :=
  (if asserted digitalRead .BMS_IN then
    [Event.logTwo .Onboard "LATCHED_FAULT" "BMS"] else []) ++
  (if asserted digitalRead .IMD_IN then
    [Event.logTwo .Onboard "LATCHED_FAULT" "IMD"] else []) ++
  (if asserted digitalRead .TEMP_SENSE_IN then
    [Event.logTwo .Onboard "LATCHED_FAULT" "TEMP_SENSE"] else []) ++
  (if asserted digitalRead .STOP_BUTTON_IN then
    [Event.logTwo .Onboard "LATCHED_FAULT" "STOP_BUTTON"] else []) ++
  (if asserted digitalRead .BMS_POWERED_IN then
    [Event.logTwo .Onboard "LATCHED_FAULT" "BMS_NOT_POWERED"] else [])

/-- The state once `handleFaultPins` has been entered and the five lines have
been read: the ghost records grow and the fault log is emitted. -/
def pollPins (digitalRead : Pin → Int) (s : State) : State :=
  { s with
    calls := s.calls ++ [.handleFaultPins]
    pinReads := s.pinReads ++ [.BMS_IN, .IMD_IN, .TEMP_SENSE_IN, .STOP_BUTTON_IN, .BMS_POWERED_IN]
    trace := s.trace ++ faultLog digitalRead }

/-- Two states agree on everything the program and its collaborators hold: the
coordinator's fields, the store, the scheduler, the receive queue and the trace
of collaborator calls. The ghost records are left out. -/
def State.sameUpToGhost (a b : State) : Prop :=
  a.dc = b.dc ∧ a.store = b.store ∧ a.timer = b.timer ∧ a.rx = b.rx ∧ a.trace = b.trace

/-- The handler calls `dispatch` is expected to make for a queue: each frame, in
queue order, goes to ready-to-drive, battery-management, CAN-node, motor and
current-sense. -/
def fanOut (queue : List Frame) : List Event :=
  queue.flatMap fun frame =>
    [Event.handleMessage .rtd_handler frame,
     Event.handleMessage .bms_handler frame,
     Event.handleMessage .can_node_handler frame,
     Event.handleMessage .motor_handler frame,
     Event.handleMessage .current_sense_handler frame]

/-- Two frames waiting in the receive queue. -/
def twoFrames : List Frame :=
  [{ id := 384, body := [1, 2], len := 2 }, { id := 80, body := [7], len := 1 }]

/-- A state with nothing registered, nothing queued and nothing recorded,
around a freshly constructed coordinator. -/
def State.fresh : State :=
  { dc := Dispatch_Controller.new
    store := { hasFault := false, leftMotor := false, rightMotor := false }
    timer := { millis := 0, tasks := [] }
    rx := []
    trace := []
    calls := []
    pinReads := [] }

/-- Sample values for the identifiers defined outside `src/`. -/
def Constants.sample : Constants :=
  { VCU_ID := 80, LEFT_MOTOR_REQUEST_ID := 513, RIGHT_MOTOR_REQUEST_ID := 514 }

/-- Readings with every fault line clear. -/
def allClear : Pin → Int :=
  fun _ => HIGH

/-- Readings with the stop button line asserted and every other line clear. -/
def stopPressed : Pin → Int :=
  fun pin => if pin = .STOP_BUTTON_IN then LOW else HIGH

/-- A begun, Enabled coordinator with no fault latched, the heartbeat still
polling. -/
def State.driving : State :=
  { State.fresh with
    dc := { begun := true, enabled := true }
    timer := { millis := 2000, tasks := [(.stepTask, 0), (.checkFaultsTask, 0), (.heartbeatTask, 0)] } }

/-- A begun, Disabled coordinator with the fault latched and a blink task still
pending from an earlier poll. -/
def State.latched : State :=
  { State.fresh with
    dc := { begun := true, enabled := false }
    store := { hasFault := true, leftMotor := true, rightMotor := true }
    timer := { millis := 9000,
               tasks := [(.stepTask, 0), (.checkFaultsTask, 0), (.requestBlinkDashLight, 4000)] } }

/-- The event is a two-field log event. -/
def Event.isLogTwo : Event → Bool
  | .logTwo _ _ _ => true
  | _ => false

/-- The event is a motor request (heartbeat or permanent updates). -/
def Event.isMotorRequest : Event → Bool
  | .requestHeartbeat => true
  | .requestPermanentUpdates _ => true
  | _ => false

/-- The event is a log event of either shape. -/
def Event.isLog : Event → Bool
  | .logOne _ _ => true
  | .logTwo _ _ _ => true
  | _ => false

/-! ## The singleton and the step relation -/

/-- The process around the coordinator: the static `instance` pointer (source
line 126; `NULL` is `none`) and everything outside the coordinator object.
`constructions` is a ghost field counting the executions of
`new Dispatch_Controller()`. -/
structure Process where
  instancePtr : Option Dispatch_Controller
  constructions : Nat
  store : Store_Controller
  timer : SoftTimerClass
  rx : List Frame
  trace : List Event
  calls : List Method
  pinReads : List Pin
  deriving DecidableEq, Repr

/-- The state a member function sees when it runs on the object `obj`. -/
def Process.withObject (obj : Dispatch_Controller) (p : Process) : State :=
  { dc := obj, store := p.store, timer := p.timer, rx := p.rx, trace := p.trace,
    calls := p.calls, pinReads := p.pinReads }

/-- The process once a member function has returned: the instance pointer leads
to the object the function ran on. -/
def State.toProcess (constructions : Nat) (s : State) : Process :=
  { instancePtr := some s.dc, constructions := constructions, store := s.store,
    timer := s.timer, rx := s.rx, trace := s.trace, calls := s.calls,
    pinReads := s.pinReads }

/-- Source lines 128 to 134: the object is constructed and begun when the
instance pointer is `NULL`; the object behind the pointer is returned. -/
def getInstance (p : Process) : Dispatch_Controller × Process :=
  match p.instancePtr with
  | none =>
    let obj := Dispatch_Controller.new
    let s := begin (p.withObject obj)
    (s.dc, s.toProcess (p.constructions + 1))
  | some obj => (obj, p)

/-- Source lines 136 to 138. -/
def Dispatcher (p : Process) : Dispatch_Controller × Process :=
  getInstance p

/-- The process after a number of accesses through `getInstance()`. -/
def getInstanceTimes : Nat → Process → Process
  | 0, p => p
  | n + 1, p => getInstanceTimes n (getInstance p).2

/-- A process in which no coordinator has been constructed yet. -/
def Process.start : Process :=
  { instancePtr := none, constructions := 0
    store := { hasFault := false, leftMotor := false, rightMotor := false }
    timer := { millis := 0, tasks := [] }
    rx := [], trace := [], calls := [], pinReads := [] }

/-- The steps of the coordinator: its public member functions other than the
dispatch loop, and the three one-shot callbacks. A fault poll carries the
readings of the lines. -/
inductive Op where
  | begin
  | enable
  | disable
  | requestMotorHeartbeat
  | requestPermanentUpdatesLeft
  | requestPermanentUpdatesRight
  | blinkDashLight
  | handleFaultPins (digitalRead : Pin → Int)

/-- One step of the coordinator. -/
def step (k : Constants) : Op → State → State
  | .begin, s => begin s
  | .enable, s => enable k s
  | .disable, s => disable k s
  | .requestMotorHeartbeat, s => requestMotorHeartbeat s
  | .requestPermanentUpdatesLeft, s => (requestPermanentUpdatesLeft k s).2
  | .requestPermanentUpdatesRight, s => (requestPermanentUpdatesRight k s).2
  | .blinkDashLight, s => (blinkDashLight k s).2
  | .handleFaultPins digitalRead, s => handleFaultPins k digitalRead s

/-- A run of steps, first step first. -/
def run (k : Constants) : List Op → State → State
  | [], s => s
  | op :: ops, s => run k ops (step k op s)

/-- The step is a fault poll in which all five lines read clear. -/
def Op.isAllClearPoll : Op → Bool
  | .handleFaultPins digitalRead => !anyAsserted digitalRead
  | _ => false

/-- A Disabled coordinator with the fault latched, as `State.latched`, before
any motor has responded. -/
def State.latchedSilent : State :=
  { State.latched with store := { hasFault := true, leftMotor := false, rightMotor := false } }

/-! ## Lemmas on the embedding -/

theorem handleSingleFaultPin_fst (dr : Pin → Int) (p : Pin) (n : String) (s : State) :
    (handleSingleFaultPin dr p n s).1 = asserted dr p := by
  unfold handleSingleFaultPin asserted
  by_cases h : dr p = LOW <;> simp [h]

theorem handleSingleFaultPin_snd (dr : Pin → Int) (p : Pin) (n : String) (s : State) :
    (handleSingleFaultPin dr p n s).2 =
      { s with
        pinReads := s.pinReads ++ [p]
        trace := s.trace ++
          (if asserted dr p then [Event.logTwo .Onboard "LATCHED_FAULT" n] else []) } := by
  unfold handleSingleFaultPin asserted
  by_cases h : dr p = LOW <;> simp [h, State.emit]

/-- The shape of `handleFaultPins`: the five reads, then one of the three
branches, then the store write. -/
theorem handleFaultPins_eq (k : Constants) (dr : Pin → Int) (s : State) :
    handleFaultPins k dr s =
      Store_logHasFault (anyAsserted dr)
        (if (anyAsserted dr && !s.store.hasFault) = true then
          SoftTimer_remove .requestBlinkDashLight
            (CAN_write { id := k.VCU_ID, body := [SHUTDOWN_LIGHT], len := 1 }
              (disable k (pollPins dr s)))
        else if (!anyAsserted dr && s.store.hasFault) = true then
          SoftTimer_add .requestBlinkDashLight
            (DelayRun_startDelayed .requestBlinkDashLight
              (SoftTimer_remove .requestBlinkDashLight (pollPins dr s)))
        else pollPins dr s) := by
  simp only [handleFaultPins, handleSingleFaultPin_fst, handleSingleFaultPin_snd, anyAsserted,
    pollPins, faultLog, Store_readHasFault, State.enter, List.append_assoc,
    List.singleton_append, List.cons_append, List.nil_append]

/-- The fault log holds no frame write. -/
theorem framesWritten_faultLog (dr : Pin → Int) : framesWritten (faultLog dr) = [] := by
  unfold faultLog
  cases asserted dr .BMS_IN <;> cases asserted dr .IMD_IN <;>
    cases asserted dr .TEMP_SENSE_IN <;> cases asserted dr .STOP_BUTTON_IN <;>
    cases asserted dr .BMS_POWERED_IN <;> rfl

/-- The fault log holds no scheduler call. -/
theorem timerCalls_faultLog (dr : Pin → Int) :
    (faultLog dr).filter Event.isTimerCall = [] := by
  unfold faultLog
  cases asserted dr .BMS_IN <;> cases asserted dr .IMD_IN <;>
    cases asserted dr .TEMP_SENSE_IN <;> cases asserted dr .STOP_BUTTON_IN <;>
    cases asserted dr .BMS_POWERED_IN <;> rfl

theorem framesWritten_append (xs ys : List Event) :
    framesWritten (xs ++ ys) = framesWritten xs ++ framesWritten ys := by
  induction xs with
  | nil => rfl
  | cons e es ih => cases e <;> simp [framesWritten, ih]

/-- A task just removed is not registered. -/
theorem registered_remove (t : Task) (st : SoftTimerClass) :
    (st.remove t).registered t = false := by
  simp [SoftTimerClass.registered, SoftTimerClass.remove]

/-- A task just added is due after its period or delay, counted from the
current clock value. -/
theorem dueAt_add (t : Task) (st : SoftTimerClass) :
    (st.add t).dueAt t = some (st.millis + t.periodMs) := by
  have h : (st.tasks.filter (fun e => decide (e.1 ≠ t))).find? (fun e => decide (e.1 = t)) = none := by
    simp [List.find?_eq_none]
  simp [SoftTimerClass.dueAt, SoftTimerClass.add, SoftTimerClass.remove, h]

/-- Adding one task does not move the due time of another. -/
theorem dueAt_add_of_ne (t u : Task) (st : SoftTimerClass) (h : t ≠ u) :
    (st.add u).dueAt t = st.dueAt t := by
  have hu : ¬ (u = t) := fun e => h e.symm
  simp only [SoftTimerClass.dueAt, SoftTimerClass.add, SoftTimerClass.remove]
  congr 1
  induction st.tasks with
  | nil => simp [hu]
  | cons e es ih =>
    by_cases hq : e.1 = u
    · have he : ¬ e.1 = t := fun q => hu (hq.symm.trans q)
      simpa [List.filter_cons, List.find?_cons, hq, he, hu] using ih
    · by_cases he : e.1 = t
      · have hf : List.filter (fun e => decide (e.1 ≠ u)) (e :: es) =
            e :: List.filter (fun e => decide (e.1 ≠ u)) es := by
          simp [List.filter_cons, hq]
        rw [hf, List.cons_append, List.find?_cons, List.find?_cons]
        simp [he]
      · simpa [List.filter_cons, List.find?_cons, hq, he] using ih

/-- The loop of `dispatch` empties the queue and appends the fan-out of its
frames to the trace; nothing else changes. -/
theorem dispatchLoop_eq (queue : List Frame) (s : State) :
    dispatchLoop queue s = { s with rx := [], trace := s.trace ++ fanOut queue } := by
  induction queue generalizing s with
  | nil => simp [dispatchLoop, fanOut]
  | cons frame rest ih =>
    simp [dispatchLoop, ih, dispatchFrame, State.emit, fanOut, List.flatMap_cons]

/-- The fan-out of a queue has five handler calls for each frame. -/
theorem length_fanOut (queue : List Frame) : (fanOut queue).length = 5 * queue.length := by
  induction queue with
  | nil => rfl
  | cons frame rest ih =>
    have h : fanOut (frame :: rest) =
        [Event.handleMessage .rtd_handler frame, Event.handleMessage .bms_handler frame,
          Event.handleMessage .can_node_handler frame, Event.handleMessage .motor_handler frame,
          Event.handleMessage .current_sense_handler frame] ++ fanOut rest := by
      simp [fanOut, List.flatMap_cons]
    rw [h, List.length_append, ih]
    simp only [List.length_cons, List.length_nil]
    omega

/-- The persisted flag after a poll is the OR over the five lines. -/
theorem handleFaultPins_hasFault (k : Constants) (dr : Pin → Int) (s : State) :
    (handleFaultPins k dr s).store.hasFault = anyAsserted dr := by
  rw [handleFaultPins_eq]
  simp [Store_logHasFault, State.emit]

/-- No line is asserted exactly when each of the five reads differs from
`LOW`. -/
theorem anyAsserted_eq_false (dr : Pin → Int) :
    anyAsserted dr = false ↔
      dr .BMS_IN ≠ LOW ∧ dr .IMD_IN ≠ LOW ∧ dr .TEMP_SENSE_IN ≠ LOW ∧
        dr .STOP_BUTTON_IN ≠ LOW ∧ dr .BMS_POWERED_IN ≠ LOW := by
  simp [anyAsserted, asserted, and_assoc]

/-- A step other than a fault poll leaves the store as it was. -/
theorem step_store (k : Constants) (op : Op) (s : State)
    (h : ∀ dr, op ≠ .handleFaultPins dr) : (step k op s).store = s.store := by
  cases op with
  | begin =>
    cases hb : s.dc.begun <;>
      simp [step, begin, State.enter, State.emit, initializeFaultPins, SoftTimer_add, hb]
  | enable =>
    cases he : s.dc.enabled <;>
      simp [step, enable, State.enter, State.emit, CAN_write, requestRightMotorUpdates,
        requestLeftMotorUpdates, he]
  | disable =>
    cases he : s.dc.enabled <;> simp [step, disable, State.enter, State.emit, CAN_write, he]
  | requestMotorHeartbeat =>
    cases hl : s.store.leftMotor <;> cases hr : s.store.rightMotor <;>
      simp [step, requestMotorHeartbeat, Store_readMotorResponse, State.enter, State.emit,
        SoftTimer_remove, SoftTimer_add, hl, hr]
  | requestPermanentUpdatesLeft =>
    simp [step, requestPermanentUpdatesLeft, requestLeftMotorUpdates, State.enter, State.emit]
  | requestPermanentUpdatesRight =>
    simp [step, requestPermanentUpdatesRight, requestRightMotorUpdates, State.enter,
      State.emit]
  | blinkDashLight =>
    cases he : s.dc.enabled <;>
      simp [step, blinkDashLight, isEnabled, CAN_write, State.emit, he]
  | handleFaultPins dr => exact absurd rfl (h dr)

/-- The frames one poll writes: on a new fault the BLINK frame of `disable()`,
when the vehicle was Enabled, and then the SHUTDOWN frame; otherwise none. -/
theorem framesWritten_handleFaultPins (k : Constants) (dr : Pin → Int) (s : State) :
    framesWritten ((handleFaultPins k dr s).emittedSince s) =
      if (anyAsserted dr && !s.store.hasFault) = true then
        (if s.dc.enabled = true then [{ id := k.VCU_ID, body := [BLINK_LIGHT], len := 1 }]
          else []) ++ [{ id := k.VCU_ID, body := [SHUTDOWN_LIGHT], len := 1 }]
      else [] := by
  rw [handleFaultPins_eq]
  cases h1 : anyAsserted dr <;> cases h2 : s.store.hasFault <;> cases h3 : s.dc.enabled <;>
    simp [Store_logHasFault, State.emit, State.emittedSince, SoftTimer_remove, SoftTimer_add,
      DelayRun_startDelayed, CAN_write, disable, pollPins, h3, State.enter,
      framesWritten_append, framesWritten, framesWritten_faultLog]

/-- The member functions one poll enters: itself, and `disable` on a new
fault. -/
theorem enteredSince_handleFaultPins (k : Constants) (dr : Pin → Int) (s : State) :
    (handleFaultPins k dr s).enteredSince s =
      if (anyAsserted dr && !s.store.hasFault) = true then [.handleFaultPins, .disable]
      else [.handleFaultPins] := by
  rw [handleFaultPins_eq]
  cases h1 : anyAsserted dr <;> cases h2 : s.store.hasFault <;> cases h3 : s.dc.enabled <;>
    simp [Store_logHasFault, State.emit, State.enteredSince, SoftTimer_remove, SoftTimer_add,
      DelayRun_startDelayed, CAN_write, disable, pollPins, h3, State.enter]

/-- The fan-out of a queue holds no frame write. -/
theorem framesWritten_fanOut (queue : List Frame) : framesWritten (fanOut queue) = [] := by
  induction queue with
  | nil => rfl
  | cons frame rest ih =>
    have h : fanOut (frame :: rest) =
        [Event.handleMessage .rtd_handler frame, Event.handleMessage .bms_handler frame,
          Event.handleMessage .can_node_handler frame, Event.handleMessage .motor_handler frame,
          Event.handleMessage .current_sense_handler frame] ++ fanOut rest := by
      simp [fanOut, List.flatMap_cons]
    rw [h, framesWritten_append, ih]
    rfl

/-- The collaborator calls of one poll: the fault log, the calls of the branch
taken, and the store write. -/
theorem emittedSince_handleFaultPins (k : Constants) (dr : Pin → Int) (s : State) :
    (handleFaultPins k dr s).emittedSince s =
      faultLog dr ++
        ((if (anyAsserted dr && !s.store.hasFault) = true then
            (if s.dc.enabled = true then
              [Event.RTD_disable,
               Event.CAN_write { id := k.VCU_ID, body := [BLINK_LIGHT], len := 1 },
               Event.logOne .Computer "vehicle_disabled_or_shutdown",
               Event.logOne .Onboard "vehicle_disabled_or_shutdown"]
            else []) ++
              [Event.CAN_write { id := k.VCU_ID, body := [SHUTDOWN_LIGHT], len := 1 },
               Event.SoftTimer_remove .requestBlinkDashLight]
          else if (!anyAsserted dr && s.store.hasFault) = true then
            [Event.SoftTimer_remove .requestBlinkDashLight,
             Event.startDelayed .requestBlinkDashLight,
             Event.SoftTimer_add .requestBlinkDashLight]
          else []) ++ [Event.logHasFault (anyAsserted dr)]) := by
  rw [handleFaultPins_eq]
  cases h1 : anyAsserted dr <;> cases h2 : s.store.hasFault <;> cases h3 : s.dc.enabled <;>
    simp [Store_logHasFault, State.emit, State.emittedSince, SoftTimer_remove, SoftTimer_add,
      DelayRun_startDelayed, CAN_write, disable, pollPins, h3, State.enter]

/-- Every event of the fault log is a two-field log event. -/
theorem isLogTwo_of_mem_faultLog (dr : Pin → Int) (e : Event) (h : e ∈ faultLog dr) :
    e.isLogTwo = true := by
  unfold faultLog at h
  simp only [List.mem_append] at h
  rcases h with (((h | h) | h) | h) | h <;>
    (split at h <;> simp at h; subst h; rfl)

/-- Filtering the fault log for two-field log events keeps all of it. -/
theorem filter_isLogTwo_faultLog (dr : Pin → Int) :
    (faultLog dr).filter Event.isLogTwo = faultLog dr :=
  List.filter_eq_self.mpr (fun e h => isLogTwo_of_mem_faultLog dr e h)

/-- The timer, after a poll that is neither a new fault nor a restore. -/
theorem handleFaultPins_no_change_state (k : Constants) (dr : Pin → Int) (s : State)
    (hsame : anyAsserted dr = s.store.hasFault) :
    (handleFaultPins k dr s).timer = s.timer ∧ (handleFaultPins k dr s).dc = s.dc ∧
      (handleFaultPins k dr s).store = s.store := by
  rw [handleFaultPins_eq]
  obtain ⟨dc, ⟨hf, l, r⟩, timer, rx, trace, calls, pinReads⟩ := s
  simp only at hsame
  subst hsame
  cases anyAsserted dr <;> simp [Store_logHasFault, State.emit, pollPins]

/-! ## Fault monitoring and latch -/

/-- C1: after `handleFaultPins`, whatever the state and the five readings, the
persisted `hasFault` is the logical OR of "line reads LOW" over the five
readings of that call; the five lines are the ones read, and the store write is
the last collaborator call of every branch. -/
theorem handleFaultPins_persists_or (k : Constants) (dr : Pin → Int) (s : State) :
    (handleFaultPins k dr s).store.hasFault =
      (decide (dr .BMS_IN = LOW) || decide (dr .IMD_IN = LOW) ||
        decide (dr .TEMP_SENSE_IN = LOW) || decide (dr .STOP_BUTTON_IN = LOW) ||
        decide (dr .BMS_POWERED_IN = LOW)) ∧
    ((handleFaultPins k dr s).emittedSince s).getLast? =
      some (.logHasFault (handleFaultPins k dr s).store.hasFault) ∧
    (handleFaultPins k dr s).readSince s =
      [.BMS_IN, .IMD_IN, .TEMP_SENSE_IN, .STOP_BUTTON_IN, .BMS_POWERED_IN] := by
  rw [handleFaultPins_eq]
  refine ⟨?_, ?_, ?_⟩
  · simp [Store_logHasFault, State.emit, anyAsserted, asserted]
  · cases h1 : anyAsserted dr <;> cases h2 : s.store.hasFault <;> cases h3 : s.dc.enabled <;>
      simp [Store_logHasFault, State.emit, State.emittedSince, SoftTimer_remove, SoftTimer_add,
        DelayRun_startDelayed, CAN_write, disable, pollPins, h1, h2, h3, State.enter]
  · cases h1 : anyAsserted dr <;> cases h2 : s.store.hasFault <;> cases h3 : s.dc.enabled <;>
      simp [Store_logHasFault, State.emit, State.readSince, SoftTimer_remove, SoftTimer_add,
        DelayRun_startDelayed, CAN_write, disable, pollPins, h1, h2, h3, State.enter]

/-- C2: from a state whose persisted `hasFault` is false, a poll with a fault
line asserted enters `disable` once, writes one SHUTDOWN frame (payload 2) and
removes the blink task from the scheduler; a second poll with a fault line
still asserted enters `disable` not at all, writes no frame and makes no
scheduler call. -/
theorem handleFaultPins_shutdown_fires_once (k : Constants) (dr dr2 : Pin → Int) (s : State)
    (hprev : s.store.hasFault = false) (hnow : anyAsserted dr = true)
    (hstill : anyAsserted dr2 = true) :
    ((handleFaultPins k dr s).enteredSince s).count .disable = 1 ∧
    (framesWritten ((handleFaultPins k dr s).emittedSince s)).filter
        (fun f => decide (f.body = [SHUTDOWN_LIGHT])) =
      [{ id := k.VCU_ID, body := [SHUTDOWN_LIGHT], len := 1 }] ∧
    ((handleFaultPins k dr s).emittedSince s).filter Event.isTimerCall =
      [.SoftTimer_remove .requestBlinkDashLight] ∧
    (handleFaultPins k dr s).timer = s.timer.remove .requestBlinkDashLight ∧
    (handleFaultPins k dr s).timer.registered .requestBlinkDashLight = false ∧
    ((handleFaultPins k dr2 (handleFaultPins k dr s)).enteredSince
        (handleFaultPins k dr s)).count .disable = 0 ∧
    framesWritten ((handleFaultPins k dr2 (handleFaultPins k dr s)).emittedSince
        (handleFaultPins k dr s)) = [] ∧
    ((handleFaultPins k dr2 (handleFaultPins k dr s)).emittedSince
        (handleFaultPins k dr s)).filter Event.isTimerCall = [] ∧
    (handleFaultPins k dr2 (handleFaultPins k dr s)).timer = (handleFaultPins k dr s).timer := by
  have hstore : (handleFaultPins k dr s).store.hasFault = true := by
    rw [handleFaultPins_eq]; simp [Store_logHasFault, State.emit, hnow]
  rw [handleFaultPins_eq k dr2 (handleFaultPins k dr s)]
  simp only [hstore, hstill]
  rw [handleFaultPins_eq k dr s]
  simp only [hprev, hnow]
  cases h3 : s.dc.enabled <;>
    simp [Store_logHasFault, State.emit, State.emittedSince, State.enteredSince, SoftTimer_remove,
      CAN_write, disable, pollPins, h3, State.enter, framesWritten_append, framesWritten,
      framesWritten_faultLog, timerCalls_faultLog, Event.isTimerCall, registered_remove,
      SHUTDOWN_LIGHT, BLINK_LIGHT, List.count_cons]

/-- C2 at a concrete input: an Enabled vehicle, no fault latched, the stop
button asserted in two polls in a row. -/
theorem handleFaultPins_shutdown_fires_once_witness :
    State.driving.store.hasFault = false ∧ anyAsserted stopPressed = true ∧
    ((handleFaultPins Constants.sample stopPressed State.driving).enteredSince
      State.driving).count .disable = 1 ∧
    framesWritten ((handleFaultPins Constants.sample stopPressed
      (handleFaultPins Constants.sample stopPressed State.driving)).emittedSince
        (handleFaultPins Constants.sample stopPressed State.driving)) = [] :=
  ⟨rfl, by decide,
    (handleFaultPins_shutdown_fires_once Constants.sample stopPressed stopPressed State.driving
      rfl (by decide) (by decide)).1,
    (handleFaultPins_shutdown_fires_once Constants.sample stopPressed stopPressed State.driving
      rfl (by decide) (by decide)).2.2.2.2.2.2.1⟩

/-- C3: disable wins on a new fault. From a state whose persisted `hasFault` is
false, Enabled or Disabled, a poll with a fault line asserted leaves
`isEnabled()` false. -/
theorem handleFaultPins_disable_wins (k : Constants) (dr : Pin → Int) (s : State)
    (hprev : s.store.hasFault = false) (hnow : anyAsserted dr = true) :
    isEnabled (handleFaultPins k dr s) = false := by
  rw [handleFaultPins_eq]
  simp only [hprev, hnow]
  cases h3 : s.dc.enabled <;>
    simp [isEnabled, Store_logHasFault, State.emit, SoftTimer_remove, CAN_write, disable,
      pollPins, h3, State.enter]

/-- C3 at a concrete input: the vehicle is Enabled and the stop button is
asserted. -/
theorem handleFaultPins_disable_wins_witness :
    isEnabled State.driving = true ∧ State.driving.store.hasFault = false ∧
    anyAsserted stopPressed = true ∧
    isEnabled (handleFaultPins Constants.sample stopPressed State.driving) = false :=
  ⟨rfl, rfl, by decide,
    handleFaultPins_disable_wins Constants.sample stopPressed State.driving rfl (by decide)⟩

/-! ## Enable / disable state machine -/

/-- C4: `enable()` and `disable()` are idempotent. A second `enable()` leaves
the state and the trace of collaborator calls as the first left them, and
`enable()` on an Enabled coordinator changes nothing and emits nothing; the same
holds for `disable()` with Disabled as the target state. -/
theorem enable_disable_idempotent (k : Constants) (s : State) :
    (enable k (enable k s)).sameUpToGhost (enable k s) ∧
    (s.dc.enabled = true → (enable k s).sameUpToGhost s) ∧
    (disable k (disable k s)).sameUpToGhost (disable k s) ∧
    (s.dc.enabled = false → (disable k s).sameUpToGhost s) := by
  refine ⟨?_, ?_, ?_, ?_⟩
  · cases h : s.dc.enabled <;>
      simp [State.sameUpToGhost, enable, State.enter, State.emit, CAN_write,
        requestRightMotorUpdates, requestLeftMotorUpdates, h]
  · intro h
    simp [State.sameUpToGhost, enable, State.enter, h]
  · cases h : s.dc.enabled <;>
      simp [State.sameUpToGhost, disable, State.enter, State.emit, CAN_write, h]
  · intro h
    simp [State.sameUpToGhost, disable, State.enter, h]

/-- C4 at concrete inputs: a fresh (Disabled) coordinator is enabled twice, and
an Enabled one is disabled twice; the second call adds nothing to the trace. -/
theorem enable_disable_idempotent_witness :
    (enable Constants.sample (enable Constants.sample State.fresh)).trace =
      (enable Constants.sample State.fresh).trace ∧
    (enable Constants.sample State.fresh).trace.length = 6 ∧
    (disable Constants.sample (disable Constants.sample State.driving)).trace =
      (disable Constants.sample State.driving).trace ∧
    (disable Constants.sample State.driving).trace.length = 4 :=
  ⟨(enable_disable_idempotent Constants.sample State.fresh).1.2.2.2.2, by decide,
    (enable_disable_idempotent Constants.sample State.driving).2.2.1.2.2.2.2, by decide⟩

/-! ## Precharge-gated indicator blink -/

/-- C5: from a state whose persisted `hasFault` is true, a poll in which all
five lines read clear cancels the pending blink task and leaves it registered
once, as a one-shot delayed task armed at the clock value of the poll with a
delay of 15000 ms, so the scheduler may not run it before 15000 ms have passed;
the call writes no frame. -/
theorem handleFaultPins_restore_arms_blink (k : Constants) (dr : Pin → Int) (s : State)
    (hprev : s.store.hasFault = true) (hclear : anyAsserted dr = false) :
    ((handleFaultPins k dr s).emittedSince s).filter Event.isTimerCall =
      [.SoftTimer_remove .requestBlinkDashLight, .startDelayed .requestBlinkDashLight,
        .SoftTimer_add .requestBlinkDashLight] ∧
    (handleFaultPins k dr s).timer.millis = s.timer.millis ∧
    (handleFaultPins k dr s).timer.tasks =
      (s.timer.remove .requestBlinkDashLight).tasks ++
        [(.requestBlinkDashLight, s.timer.millis)] ∧
    Task.isDelayRun .requestBlinkDashLight = true ∧
    Task.periodMs .requestBlinkDashLight = 15000 ∧
    (handleFaultPins k dr s).timer.dueAt .requestBlinkDashLight =
      some (s.timer.millis + 15000) ∧
    (∀ now, (handleFaultPins k dr s).timer.mayFire .requestBlinkDashLight now = true →
      s.timer.millis + 15000 ≤ now) ∧
    framesWritten ((handleFaultPins k dr s).emittedSince s) = [] := by
  have htasks : (handleFaultPins k dr s).timer.tasks =
      (s.timer.remove .requestBlinkDashLight).tasks ++
        [(.requestBlinkDashLight, s.timer.millis)] := by
    rw [handleFaultPins_eq]
    simp [hprev, hclear, Store_logHasFault, State.emit, SoftTimer_remove, SoftTimer_add,
      DelayRun_startDelayed, pollPins, SoftTimerClass.add, SoftTimerClass.remove]
  have hnone : (s.timer.remove .requestBlinkDashLight).tasks.find?
      (fun e => decide (e.1 = Task.requestBlinkDashLight)) = none := by
    simp [SoftTimerClass.remove, List.find?_eq_none]
  refine ⟨?_, ?_, htasks, rfl, rfl, ?_, ?_, ?_⟩
  · rw [handleFaultPins_eq]
    simp [hprev, hclear, Store_logHasFault, State.emit, State.emittedSince, SoftTimer_remove,
      SoftTimer_add, DelayRun_startDelayed, pollPins, timerCalls_faultLog, Event.isTimerCall]
  · rw [handleFaultPins_eq]
    simp [hprev, hclear, Store_logHasFault, State.emit, SoftTimer_remove, SoftTimer_add,
      DelayRun_startDelayed, pollPins, SoftTimerClass.add, SoftTimerClass.remove]
  · simp [SoftTimerClass.dueAt, htasks, hnone, Task.periodMs, PRECHARGE_DELAY]
  · intro now hfire
    have hcases : (∃ a b, (a, b) ∈ s.timer.tasks ∧ ¬a = Task.requestBlinkDashLight ∧
        a = Task.requestBlinkDashLight ∧ b + 15000 ≤ now) ∨ s.timer.millis + 15000 ≤ now := by
      simpa [SoftTimerClass.mayFire, htasks, SoftTimerClass.remove, Task.periodMs,
        PRECHARGE_DELAY] using hfire
    rcases hcases with ⟨a, b, _, hne, heq, _⟩ | hle
    · exact absurd heq hne
    · exact hle
  · rw [handleFaultPins_eq]
    simp [hprev, hclear, Store_logHasFault, State.emit, State.emittedSince, SoftTimer_remove,
      SoftTimer_add, DelayRun_startDelayed, pollPins, framesWritten_append, framesWritten,
      framesWritten_faultLog]

/-- C5 at a concrete input: the fault is latched, a blink task armed at 4000 ms
is pending, and the poll at 9000 ms reads every line clear. -/
theorem handleFaultPins_restore_arms_blink_witness :
    State.latched.store.hasFault = true ∧ anyAsserted allClear = false ∧
    (handleFaultPins Constants.sample allClear State.latched).timer.tasks =
      [(.stepTask, 0), (.checkFaultsTask, 0), (.requestBlinkDashLight, 9000)] ∧
    (handleFaultPins Constants.sample allClear State.latched).timer.dueAt
      .requestBlinkDashLight = some 24000 :=
  ⟨rfl, by decide,
    (handleFaultPins_restore_arms_blink Constants.sample allClear State.latched rfl
      (by decide)).2.2.1,
    (handleFaultPins_restore_arms_blink Constants.sample allClear State.latched rfl
      (by decide)).2.2.2.2.2.1⟩

/-- C6: the blink callback is guarded by the enabled state. It writes one BLINK
frame (payload 0) when `isEnabled()` is false and nothing when it is true; it
returns false and leaves `enabled`, the store and the scheduler as they were.
After a true-to-false poll and then `enable()`, the firing callback writes
nothing, and no frame of the whole sequence is a BLINK frame. -/
theorem blinkDashLight_guarded (k : Constants) (s : State) :
    (blinkDashLight k s).1 = false ∧
    (isEnabled s = false →
      (blinkDashLight k s).2.emittedSince s =
        [.CAN_write { id := k.VCU_ID, body := [BLINK_LIGHT], len := 1 }]) ∧
    (isEnabled s = true → (blinkDashLight k s).2.emittedSince s = []) ∧
    (blinkDashLight k s).2.dc = s.dc ∧
    (blinkDashLight k s).2.store = s.store ∧
    (blinkDashLight k s).2.timer = s.timer ∧
    (∀ dr : Pin → Int, s.store.hasFault = true → anyAsserted dr = false →
      (blinkDashLight k (enable k (handleFaultPins k dr s))).2.emittedSince
          (enable k (handleFaultPins k dr s)) = [] ∧
      ∀ f ∈ framesWritten
          ((blinkDashLight k (enable k (handleFaultPins k dr s))).2.emittedSince s),
        f.body ≠ [BLINK_LIGHT]) := by
  refine ⟨rfl, ?_, ?_, ?_, ?_, ?_, ?_⟩
  · intro h
    simp [blinkDashLight, h, CAN_write, State.emit, State.emittedSince]
  · intro h
    simp [blinkDashLight, h, State.emittedSince]
  · cases h : s.dc.enabled <;> simp [blinkDashLight, isEnabled, h, CAN_write, State.emit]
  · cases h : s.dc.enabled <;> simp [blinkDashLight, isEnabled, h, CAN_write, State.emit]
  · cases h : s.dc.enabled <;> simp [blinkDashLight, isEnabled, h, CAN_write, State.emit]
  · intro dr hprev hclear
    rw [handleFaultPins_eq]
    cases h : s.dc.enabled <;>
      simp [hprev, hclear, blinkDashLight, isEnabled, enable, h, CAN_write, State.emit,
        State.enter, State.emittedSince, Store_logHasFault, SoftTimer_remove, SoftTimer_add,
        DelayRun_startDelayed, pollPins, requestRightMotorUpdates, requestLeftMotorUpdates,
        framesWritten_append, framesWritten, framesWritten_faultLog, ENABLE_LIGHT, BLINK_LIGHT]

/-- C6 at concrete inputs: the callback on a Disabled and on an Enabled
coordinator, and the sequence poll, `enable()`, callback from a latched
fault. -/
theorem blinkDashLight_guarded_witness :
    isEnabled State.latched = false ∧
    (blinkDashLight Constants.sample State.latched).2.emittedSince State.latched =
      [.CAN_write { id := 80, body := [0], len := 1 }] ∧
    isEnabled State.driving = true ∧
    (blinkDashLight Constants.sample State.driving).2.emittedSince State.driving = [] ∧
    (blinkDashLight Constants.sample
      (enable Constants.sample (handleFaultPins Constants.sample allClear State.latched))).2.emittedSince
        (enable Constants.sample (handleFaultPins Constants.sample allClear State.latched)) = [] :=
  ⟨rfl, (blinkDashLight_guarded Constants.sample State.latched).2.1 rfl, rfl,
    (blinkDashLight_guarded Constants.sample State.driving).2.2.1 rfl,
    ((blinkDashLight_guarded Constants.sample State.latched).2.2.2.2.2.2 allClear rfl
      (by decide)).1⟩

/-! ## Motor-update escalation -/

/-- C7: one step of the escalation. If a "has responded" flag is false,
`requestMotorHeartbeat` issues one heartbeat request and leaves the scheduler
as it was. If both are true it issues none, removes the heartbeat task and
registers the two one-shot tasks, left with a delay of 50 ms and right with
100 ms from the current clock value, so that left is due strictly before
right. -/
theorem requestMotorHeartbeat_escalation (s : State) :
    ((s.store.leftMotor = false ∨ s.store.rightMotor = false) →
      (requestMotorHeartbeat s).emittedSince s = [.requestHeartbeat] ∧
      (requestMotorHeartbeat s).timer = s.timer) ∧
    ((s.store.leftMotor = true ∧ s.store.rightMotor = true) →
      (requestMotorHeartbeat s).emittedSince s =
        [.SoftTimer_remove .heartbeatTask, .SoftTimer_add .requestLeftMotorUpdatesTask,
          .SoftTimer_add .requestRightMotorUpdatesTask] ∧
      (requestMotorHeartbeat s).timer.registered .heartbeatTask = false ∧
      (requestMotorHeartbeat s).timer.tasks =
        (((s.timer.remove .heartbeatTask).remove .requestLeftMotorUpdatesTask).remove
          .requestRightMotorUpdatesTask).tasks ++
          [(.requestLeftMotorUpdatesTask, s.timer.millis),
            (.requestRightMotorUpdatesTask, s.timer.millis)] ∧
      Task.isDelayRun .requestLeftMotorUpdatesTask = true ∧
      Task.isDelayRun .requestRightMotorUpdatesTask = true ∧
      (requestMotorHeartbeat s).timer.dueAt .requestLeftMotorUpdatesTask =
        some (s.timer.millis + 50) ∧
      (requestMotorHeartbeat s).timer.dueAt .requestRightMotorUpdatesTask =
        some (s.timer.millis + 100) ∧
      ∀ l r, (requestMotorHeartbeat s).timer.dueAt .requestLeftMotorUpdatesTask = some l →
        (requestMotorHeartbeat s).timer.dueAt .requestRightMotorUpdatesTask = some r →
        l < r) := by
  constructor
  · intro h
    have hb : (s.store.rightMotor && s.store.leftMotor) = false := by
      rcases h with h | h <;> simp [h]
    simp [requestMotorHeartbeat, Store_readMotorResponse, State.enter, State.emit,
      State.emittedSince, hb]
  · rintro ⟨hl, hr⟩
    have htimer : (requestMotorHeartbeat s).timer =
        ((s.timer.remove .heartbeatTask).add .requestLeftMotorUpdatesTask).add
          .requestRightMotorUpdatesTask := by
      simp [requestMotorHeartbeat, Store_readMotorResponse, State.enter, State.emit,
        SoftTimer_remove, SoftTimer_add, hl, hr]
    have hleft : (requestMotorHeartbeat s).timer.dueAt .requestLeftMotorUpdatesTask =
        some (s.timer.millis + 50) := by
      rw [htimer, dueAt_add_of_ne _ _ _ (by decide), dueAt_add]
      rfl
    have hright : (requestMotorHeartbeat s).timer.dueAt .requestRightMotorUpdatesTask =
        some (s.timer.millis + 100) := by
      rw [htimer, dueAt_add]
      rfl
    refine ⟨?_, ?_, ?_, rfl, rfl, hleft, hright, ?_⟩
    · simp [requestMotorHeartbeat, Store_readMotorResponse, State.enter, State.emit,
        State.emittedSince, SoftTimer_remove, SoftTimer_add, hl, hr]
    · rw [htimer]
      simp [SoftTimerClass.registered, SoftTimerClass.add, SoftTimerClass.remove]
    · rw [htimer]
      simp [SoftTimerClass.add, SoftTimerClass.remove]
    · intro l r h1 h2
      rw [hleft] at h1
      rw [hright] at h2
      cases h1
      cases h2
      omega

/-- C7 at concrete inputs: no motor has responded (heartbeat stays armed), and
both have responded at clock value 9000. -/
theorem requestMotorHeartbeat_escalation_witness :
    (State.driving.store.leftMotor = false ∨ State.driving.store.rightMotor = false) ∧
    (requestMotorHeartbeat State.driving).emittedSince State.driving = [.requestHeartbeat] ∧
    (State.latched.store.leftMotor = true ∧ State.latched.store.rightMotor = true) ∧
    (requestMotorHeartbeat State.latched).timer.dueAt .requestLeftMotorUpdatesTask =
      some 9050 ∧
    (requestMotorHeartbeat State.latched).timer.dueAt .requestRightMotorUpdatesTask =
      some 9100 :=
  ⟨Or.inl rfl, ((requestMotorHeartbeat_escalation State.driving).1 (Or.inl rfl)).1,
    ⟨rfl, rfl⟩,
    ((requestMotorHeartbeat_escalation State.latched).2 ⟨rfl, rfl⟩).2.2.2.2.2.1,
    ((requestMotorHeartbeat_escalation State.latched).2 ⟨rfl, rfl⟩).2.2.2.2.2.2.1⟩

/-! ## Frame dispatch loop -/

/-- C8: for a receive queue of any length (handlers do not enqueue frames),
`dispatch` returns with the queue empty, and the handler calls it made are, for
each frame in queue order, `handleMessage` on ready-to-drive,
battery-management, CAN-node, motor and current-sense: five calls for each
frame, none for an empty queue. Nothing else changes. -/
theorem dispatch_delivers_all (s : State) :
    (dispatch s).rx = [] ∧
    (dispatch s).emittedSince s =
      s.rx.flatMap (fun frame =>
        [Event.handleMessage .rtd_handler frame,
         Event.handleMessage .bms_handler frame,
         Event.handleMessage .can_node_handler frame,
         Event.handleMessage .motor_handler frame,
         Event.handleMessage .current_sense_handler frame]) ∧
    ((dispatch s).emittedSince s).length = 5 * s.rx.length ∧
    (s.rx = [] → (dispatch s).emittedSince s = []) ∧
    (dispatch s).dc = s.dc ∧ (dispatch s).store = s.store ∧ (dispatch s).timer = s.timer := by
  have htrace : (dispatch s).emittedSince s = fanOut s.rx := by
    simp [dispatch, dispatchLoop_eq, State.enter, State.emittedSince]
  refine ⟨?_, htrace, ?_, ?_, ?_, ?_, ?_⟩
  · simp [dispatch, dispatchLoop_eq]
  · rw [htrace, length_fanOut]
  · intro h
    rw [htrace, h]
    rfl
  · simp [dispatch, dispatchLoop_eq, State.enter]
  · simp [dispatch, dispatchLoop_eq, State.enter]
  · simp [dispatch, dispatchLoop_eq, State.enter]

/-- C8 at a concrete input: two queued frames give ten handler calls, the first
frame's five before the second frame's five. -/
theorem dispatch_delivers_all_witness :
    (dispatch { State.driving with rx := twoFrames }).rx = [] ∧
    (dispatch { State.driving with rx := twoFrames }).emittedSince
        { State.driving with rx := twoFrames } =
      [.handleMessage .rtd_handler { id := 384, body := [1, 2], len := 2 },
       .handleMessage .bms_handler { id := 384, body := [1, 2], len := 2 },
       .handleMessage .can_node_handler { id := 384, body := [1, 2], len := 2 },
       .handleMessage .motor_handler { id := 384, body := [1, 2], len := 2 },
       .handleMessage .current_sense_handler { id := 384, body := [1, 2], len := 2 },
       .handleMessage .rtd_handler { id := 80, body := [7], len := 1 },
       .handleMessage .bms_handler { id := 80, body := [7], len := 1 },
       .handleMessage .can_node_handler { id := 80, body := [7], len := 1 },
       .handleMessage .motor_handler { id := 80, body := [7], len := 1 },
       .handleMessage .current_sense_handler { id := 80, body := [7], len := 1 }] :=
  ⟨(dispatch_delivers_all { State.driving with rx := twoFrames }).1,
    (dispatch_delivers_all { State.driving with rx := twoFrames }).2.1⟩

/-! ## Lifecycle -/

/-- C9, the code at a fresh coordinator: the first `begin()` calls `begin()`
on the ready-to-drive, CAN-node, battery-management and motor handlers and on
no other; no state makes `begin()` initialise the current-sense handler. -/
theorem begin_omits_current_sense_handler :
    State.fresh.dc.begun = false ∧
    (begin State.fresh).emittedSince State.fresh =
      [.CAN_begin, .RTD_begin,
       .handler_begin .rtd_handler, .handler_begin .can_node_handler,
       .handler_begin .bms_handler, .handler_begin .motor_handler,
       .pinMode_INPUT .BMS_IN, .pinMode_INPUT .IMD_IN, .pinMode_INPUT .VCU_IN,
       .pinMode_INPUT .TEMP_SENSE_IN, .pinMode_INPUT .STOP_BUTTON_IN,
       .pinMode_INPUT .BMS_POWERED_IN,
       .SoftTimer_add .stepTask, .SoftTimer_add .checkFaultsTask,
       .SoftTimer_add .heartbeatTask,
       .logOne .Computer "vehicle_power_on", .logOne .Onboard "vehicle_power_on",
       .logOne .Xbee "vehicle_power_on"] ∧
    ∀ s : State, Event.handler_begin .current_sense_handler ∉ (begin s).emittedSince s := by
  refine ⟨rfl, rfl, ?_⟩
  intro s
  cases h : s.dc.begun <;>
    simp [begin, State.enter, State.emit, State.emittedSince, initializeFaultPins,
      SoftTimer_add, h]

/-- C10: `begin()` is idempotent. A second `begin()` leaves the state and the
trace as the first left them, and `begin()` on a begun coordinator changes
nothing and emits nothing. From `begun = false`, two calls together register
each of the dispatch-loop, fault-poll and heartbeat tasks once and emit
"vehicle_power_on" once to each of the three log sinks. -/
theorem begin_idempotent (s : State) :
    (begin (begin s)).sameUpToGhost (begin s) ∧
    (s.dc.begun = true → (begin s).sameUpToGhost s) ∧
    (s.dc.begun = false →
      ((begin (begin s)).emittedSince s).count (.SoftTimer_add .stepTask) = 1 ∧
      ((begin (begin s)).emittedSince s).count (.SoftTimer_add .checkFaultsTask) = 1 ∧
      ((begin (begin s)).emittedSince s).count (.SoftTimer_add .heartbeatTask) = 1 ∧
      ((begin (begin s)).emittedSince s).count (.logOne .Computer "vehicle_power_on") = 1 ∧
      ((begin (begin s)).emittedSince s).count (.logOne .Onboard "vehicle_power_on") = 1 ∧
      ((begin (begin s)).emittedSince s).count (.logOne .Xbee "vehicle_power_on") = 1 ∧
      ((begin (begin s)).emittedSince s).filter Event.isTimerCall =
        [.SoftTimer_add .stepTask, .SoftTimer_add .checkFaultsTask,
          .SoftTimer_add .heartbeatTask]) := by
  refine ⟨?_, ?_, ?_⟩
  · cases h : s.dc.begun <;>
      simp [State.sameUpToGhost, begin, State.enter, State.emit, initializeFaultPins,
        SoftTimer_add, h]
  · intro h
    simp [State.sameUpToGhost, begin, State.enter, h]
  · intro h
    simp [begin, State.enter, State.emit, State.emittedSince, initializeFaultPins,
      SoftTimer_add, h, List.count_cons, Event.isTimerCall]

/-- C10 at concrete inputs: a fresh coordinator is begun twice, and a begun one
once more. -/
theorem begin_idempotent_witness :
    State.fresh.dc.begun = false ∧
    (begin (begin State.fresh)).trace = (begin State.fresh).trace ∧
    ((begin (begin State.fresh)).emittedSince State.fresh).count
      (.logOne .Xbee "vehicle_power_on") = 1 ∧
    State.driving.dc.begun = true ∧
    (begin State.driving).trace = State.driving.trace :=
  ⟨rfl, (begin_idempotent State.fresh).1.2.2.2.2,
    ((begin_idempotent State.fresh).2.2 rfl).2.2.2.2.2.1, rfl,
    ((begin_idempotent State.driving).2.1 rfl).2.2.2.2⟩

/-! ## Side effects of a state change -/

/-- C11: on a Disabled coordinator, whatever the "has responded" flags and the
registered tasks, `enable()` sets `enabled`, commands the ready-to-drive
subsystem to enable once, writes one ENABLE frame (payload 1), requests
permanent updates for the right and for the left motor once each, and emits two
log events; the store and the scheduler stay as they were. -/
theorem enable_side_effects (k : Constants) (s : State) (hdis : s.dc.enabled = false) :
    (enable k s).dc.enabled = true ∧
    (enable k s).emittedSince s =
      [.RTD_enable,
       .CAN_write { id := k.VCU_ID, body := [ENABLE_LIGHT], len := 1 },
       .requestPermanentUpdates k.RIGHT_MOTOR_REQUEST_ID,
       .requestPermanentUpdates k.LEFT_MOTOR_REQUEST_ID,
       .logOne .Computer "vehicle_enabled",
       .logOne .Onboard "vehicle_enabled"] ∧
    ((enable k s).emittedSince s).count .RTD_enable = 1 ∧
    framesWritten ((enable k s).emittedSince s) =
      [{ id := k.VCU_ID, body := [1], len := 1 }] ∧
    ((enable k s).enteredSince s).count .requestLeftMotorUpdates = 1 ∧
    ((enable k s).enteredSince s).count .requestRightMotorUpdates = 1 ∧
    (((enable k s).emittedSince s).filter Event.isMotorRequest).length = 2 ∧
    (((enable k s).emittedSince s).filter Event.isLog).length = 2 ∧
    (enable k s).store = s.store ∧ (enable k s).timer = s.timer := by
  simp [enable, State.enter, State.emit, State.emittedSince, State.enteredSince, CAN_write,
    requestRightMotorUpdates, requestLeftMotorUpdates, hdis, framesWritten, ENABLE_LIGHT,
    List.count_cons, Event.isMotorRequest, Event.isLog]

/-- C11 at a concrete input: a Disabled coordinator before any motor has
responded. -/
theorem enable_side_effects_witness :
    State.latchedSilent.dc.enabled = false ∧
    State.latchedSilent.store.leftMotor = false ∧
    State.latchedSilent.store.rightMotor = false ∧
    (enable Constants.sample State.latchedSilent).emittedSince State.latchedSilent =
      [.RTD_enable, .CAN_write { id := 80, body := [1], len := 1 },
       .requestPermanentUpdates 514, .requestPermanentUpdates 513,
       .logOne .Computer "vehicle_enabled", .logOne .Onboard "vehicle_enabled"] :=
  ⟨rfl, rfl, rfl, (enable_side_effects Constants.sample State.latchedSilent rfl).2.1⟩

/-- C12: on an Enabled coordinator, `disable()` clears `enabled`, commands the
ready-to-drive subsystem to disable once, writes one BLINK frame (payload 0),
emits two log events and no motor request, and leaves the store (the persisted
`hasFault` with it) and the scheduler as they were. -/
theorem disable_side_effects (k : Constants) (s : State) (hen : s.dc.enabled = true) :
    (disable k s).dc.enabled = false ∧
    (disable k s).emittedSince s =
      [.RTD_disable,
       .CAN_write { id := k.VCU_ID, body := [BLINK_LIGHT], len := 1 },
       .logOne .Computer "vehicle_disabled_or_shutdown",
       .logOne .Onboard "vehicle_disabled_or_shutdown"] ∧
    ((disable k s).emittedSince s).count .RTD_disable = 1 ∧
    framesWritten ((disable k s).emittedSince s) =
      [{ id := k.VCU_ID, body := [0], len := 1 }] ∧
    (((disable k s).emittedSince s).filter Event.isLog).length = 2 ∧
    ((disable k s).emittedSince s).filter Event.isMotorRequest = [] ∧
    (disable k s).store.hasFault = s.store.hasFault ∧
    (disable k s).store = s.store ∧ (disable k s).timer = s.timer := by
  simp [disable, State.enter, State.emit, State.emittedSince, CAN_write, hen, framesWritten,
    BLINK_LIGHT, List.count_cons, Event.isMotorRequest, Event.isLog]

/-- C12 at a concrete input: an Enabled coordinator is disabled. -/
theorem disable_side_effects_witness :
    State.driving.dc.enabled = true ∧
    (disable Constants.sample State.driving).dc.enabled = false ∧
    (disable Constants.sample State.driving).emittedSince State.driving =
      [.RTD_disable, .CAN_write { id := 80, body := [0], len := 1 },
       .logOne .Computer "vehicle_disabled_or_shutdown",
       .logOne .Onboard "vehicle_disabled_or_shutdown"] :=
  ⟨rfl, (disable_side_effects Constants.sample State.driving rfl).1,
    (disable_side_effects Constants.sample State.driving rfl).2.1⟩

/-! ## The latch and the status frames over all steps -/

/-- C13: the latch invariant over the steps of the coordinator. A step that
changes the persisted `hasFault` is a fault poll; a step that takes it from
true to false is a fault poll in which all five lines read clear; and over a
run of steps that holds no such poll a latched fault stays latched. -/
theorem hasFault_latched (k : Constants) (op : Op) (s : State) :
    ((step k op s).store.hasFault ≠ s.store.hasFault → ∃ dr, op = .handleFaultPins dr) ∧
    (s.store.hasFault = true → (step k op s).store.hasFault = false →
      ∃ dr, op = .handleFaultPins dr ∧
        dr .BMS_IN ≠ LOW ∧ dr .IMD_IN ≠ LOW ∧ dr .TEMP_SENSE_IN ≠ LOW ∧
        dr .STOP_BUTTON_IN ≠ LOW ∧ dr .BMS_POWERED_IN ≠ LOW) ∧
    (∀ ops : List Op, s.store.hasFault = true →
      (∀ o ∈ ops, o.isAllClearPoll = false) → (run k ops s).store.hasFault = true) := by
  have hpoll : ∀ (o : Op) (t : State), (step k o t).store.hasFault ≠ t.store.hasFault →
      ∃ dr, o = .handleFaultPins dr := by
    intro o t hne
    by_contra hno
    have hall : ∀ dr, o ≠ .handleFaultPins dr := fun dr heq => hno ⟨dr, heq⟩
    exact hne (by rw [step_store k o t hall])
  have hkeep : ∀ (o : Op) (t : State), t.store.hasFault = true → o.isAllClearPoll = false →
      (step k o t).store.hasFault = true := by
    intro o t ht ho
    by_contra hne
    have hchg : (step k o t).store.hasFault ≠ t.store.hasFault := by
      rw [ht]; exact hne
    obtain ⟨dr, rfl⟩ := hpoll o t hchg
    have hval : (step k (.handleFaultPins dr) t).store.hasFault = anyAsserted dr :=
      handleFaultPins_hasFault k dr t
    have hany : anyAsserted dr = true := by simpa [Op.isAllClearPoll] using ho
    exact hne (by rw [hval, hany])
  refine ⟨hpoll op s, ?_, ?_⟩
  · intro htrue hfalse
    have hchg : (step k op s).store.hasFault ≠ s.store.hasFault := by
      rw [htrue, hfalse]; decide
    obtain ⟨dr, rfl⟩ := hpoll op s hchg
    have hval : (step k (.handleFaultPins dr) s).store.hasFault = anyAsserted dr :=
      handleFaultPins_hasFault k dr s
    rw [hval] at hfalse
    exact ⟨dr, rfl, (anyAsserted_eq_false dr).mp hfalse⟩
  · intro ops
    induction ops generalizing s with
    | nil => intro h _; exact h
    | cons o rest ih =>
      intro h hall
      have ho : o.isAllClearPoll = false := hall o (List.mem_cons_self o rest)
      exact ih (step k o s) (hkeep o s h ho)
        (fun o2 h2 => hall o2 (List.mem_cons_of_mem o h2))

/-- C13 at a concrete input: from a latched fault the run enable, poll with the
stop button asserted, blink callback, disable keeps the fault latched, and the
poll with every line clear is the step that releases it. -/
theorem hasFault_latched_witness :
    State.latched.store.hasFault = true ∧
    (run Constants.sample [.enable, .handleFaultPins stopPressed, .blinkDashLight, .disable]
      State.latched).store.hasFault = true ∧
    (step Constants.sample (.handleFaultPins allClear) State.latched).store.hasFault = false :=
  ⟨rfl,
    (hasFault_latched Constants.sample .enable State.latched).2.2
      [.enable, .handleFaultPins stopPressed, .blinkDashLight, .disable] rfl (by decide),
    by decide⟩

/-- C14: every frame the coordinator writes, in any step, carries `VCU_ID`, has
length 1 and has first payload byte 0, 1 or 2. Payload 0 is the BLINK frame,
written by the blink callback or inside `disable()`; payload 1 is written by
`enable()` only; payload 2 is written only by a fault poll on its false-to-true
branch. The dispatch loop writes no frame itself. -/
theorem written_frames_are_status_frames (k : Constants) (op : Op) (s : State) :
    (∀ f ∈ framesWritten ((step k op s).emittedSince s),
      f.id = k.VCU_ID ∧ f.len = 1 ∧
      (f.body = [0] ∨ f.body = [1] ∨ f.body = [2]) ∧
      (f.body.head? = some 0 →
        f.body = [BLINK_LIGHT] ∧
          (op = .blinkDashLight ∨ Method.disable ∈ (step k op s).enteredSince s)) ∧
      (f.body.head? = some 1 → f.body = [ENABLE_LIGHT] ∧ op = .enable) ∧
      (f.body.head? = some 2 →
        f.body = [SHUTDOWN_LIGHT] ∧
          ∃ dr, op = .handleFaultPins dr ∧ s.store.hasFault = false ∧
            anyAsserted dr = true)) ∧
    framesWritten ((dispatch s).emittedSince s) = [] := by
  constructor
  · intro f hf
    cases op with
    | begin =>
      cases hb : s.dc.begun <;>
        simp [step, begin, State.enter, State.emit, State.emittedSince, initializeFaultPins,
          SoftTimer_add, hb, framesWritten] at hf
    | enable =>
      cases he : s.dc.enabled <;>
        simp [step, enable, State.enter, State.emit, State.emittedSince, CAN_write,
          requestRightMotorUpdates, requestLeftMotorUpdates, he, framesWritten] at hf
      subst hf
      simp [ENABLE_LIGHT]
    | disable =>
      cases he : s.dc.enabled <;>
        simp [step, disable, State.enter, State.emit, State.emittedSince, CAN_write, he,
          framesWritten] at hf
      subst hf
      simp [BLINK_LIGHT, step, disable, State.enter, State.emit, State.enteredSince,
        CAN_write, he]
    | requestMotorHeartbeat =>
      cases hl : s.store.leftMotor <;> cases hr : s.store.rightMotor <;>
        simp [step, requestMotorHeartbeat, Store_readMotorResponse, State.enter, State.emit,
          State.emittedSince, SoftTimer_remove, SoftTimer_add, hl, hr, framesWritten] at hf
    | requestPermanentUpdatesLeft =>
      simp [step, requestPermanentUpdatesLeft, requestLeftMotorUpdates, State.enter,
        State.emit, State.emittedSince, framesWritten] at hf
    | requestPermanentUpdatesRight =>
      simp [step, requestPermanentUpdatesRight, requestRightMotorUpdates, State.enter,
        State.emit, State.emittedSince, framesWritten] at hf
    | blinkDashLight =>
      cases he : s.dc.enabled <;>
        simp [step, blinkDashLight, isEnabled, CAN_write, State.emit, State.emittedSince, he,
          framesWritten] at hf
      subst hf
      simp [BLINK_LIGHT]
    | handleFaultPins dr =>
      have hentered := enteredSince_handleFaultPins k dr s
      have hframes := framesWritten_handleFaultPins k dr s
      simp only [step] at hf ⊢
      rw [hframes] at hf
      rw [hentered]
      cases h1 : anyAsserted dr <;> cases h2 : s.store.hasFault <;>
        cases h3 : s.dc.enabled <;> simp [h1, h2, h3] at hf ⊢
      · subst hf
        simp [SHUTDOWN_LIGHT]
      · rcases hf with hf | hf <;> subst hf <;> simp [SHUTDOWN_LIGHT, BLINK_LIGHT]
  · simp [dispatch, dispatchLoop_eq, State.enter, State.emittedSince, framesWritten_fanOut]

/-- C14 at a concrete input: the frames of a new fault on an Enabled vehicle,
BLINK from `disable()` and then SHUTDOWN, both on `VCU_ID` with length 1. -/
theorem written_frames_are_status_frames_witness :
    framesWritten ((step Constants.sample (.handleFaultPins stopPressed)
      State.driving).emittedSince State.driving) =
      [{ id := 80, body := [0], len := 1 }, { id := 80, body := [2], len := 1 }] ∧
    (∀ f ∈ framesWritten ((step Constants.sample (.handleFaultPins stopPressed)
      State.driving).emittedSince State.driving), f.id = 80 ∧ f.len = 1) :=
  ⟨by decide, fun f hf =>
    ⟨((written_frames_are_status_frames Constants.sample (.handleFaultPins stopPressed)
        State.driving).1 f hf).1,
      ((written_frames_are_status_frames Constants.sample (.handleFaultPins stopPressed)
        State.driving).1 f hf).2.1⟩⟩

/-! ## The singleton accessor -/

/-- C15: `getInstance()` is a lazy singleton. With the instance pointer `NULL`
it constructs one coordinator with `begun` and `enabled` false, runs `begin()`
on it once and returns it with `begun` true and `isEnabled()` false, stored
behind the pointer. With the pointer set it returns the stored object and
changes nothing: no construction, no `begin()`, no collaborator call. However
often it is called, one coordinator is constructed. -/
theorem getInstance_lazy_singleton (p : Process) :
    Dispatch_Controller.new = { begun := false, enabled := false } ∧
    (p.instancePtr = none →
      (getInstance p).2 =
        (begin (p.withObject Dispatch_Controller.new)).toProcess (p.constructions + 1) ∧
      (getInstance p).1 = { begun := true, enabled := false } ∧
      (getInstance p).2.instancePtr = some (getInstance p).1 ∧
      isEnabled ((getInstance p).2.withObject (getInstance p).1) = false ∧
      (getInstance p).2.constructions = p.constructions + 1 ∧
      ((getInstance p).2.calls.drop p.calls.length).count .begin = 1 ∧
      getInstance (getInstance p).2 = ((getInstance p).1, (getInstance p).2) ∧
      ∀ n, (getInstanceTimes (n + 1) p).instancePtr = some (getInstance p).1 ∧
        (getInstanceTimes (n + 1) p).constructions = p.constructions + 1 ∧
        getInstanceTimes (n + 1) p = (getInstance p).2) ∧
    (∀ obj, p.instancePtr = some obj → getInstance p = (obj, p)) := by
  have hset : ∀ (q : Process) (obj : Dispatch_Controller), q.instancePtr = some obj →
      getInstance q = (obj, q) := by
    intro q obj h
    simp [getInstance, h]
  have hstay : ∀ (n : Nat) (q : Process) (obj : Dispatch_Controller),
      q.instancePtr = some obj → getInstanceTimes n q = q := by
    intro n
    induction n with
    | zero => intro q obj _; rfl
    | succ m ih =>
      intro q obj h
      simp only [getInstanceTimes, hset q obj h]
      exact ih q obj h
  refine ⟨rfl, ?_, hset p⟩
  intro hnone
  have hfirst : getInstance p =
      ((begin (p.withObject Dispatch_Controller.new)).dc,
        (begin (p.withObject Dispatch_Controller.new)).toProcess (p.constructions + 1)) := by
    simp [getInstance, hnone]
  have hobj : (begin (p.withObject Dispatch_Controller.new)).dc =
      { begun := true, enabled := false } := by
    simp [begin, Process.withObject, Dispatch_Controller.new, State.enter, State.emit,
      initializeFaultPins, SoftTimer_add]
  have hptr : (getInstance p).2.instancePtr = some (getInstance p).1 := by
    rw [hfirst]; rfl
  have hmany : ∀ n, getInstanceTimes (n + 1) p = (getInstance p).2 := by
    intro n
    simp only [getInstanceTimes]
    exact hstay n _ _ hptr
  refine ⟨?_, ?_, hptr, ?_, ?_, ?_, ?_, ?_⟩
  · rw [hfirst]
  · rw [hfirst]; exact hobj
  · rw [hfirst]
    show (begin (p.withObject Dispatch_Controller.new)).dc.enabled = false
    rw [hobj]
  · rw [hfirst]; rfl
  · rw [hfirst]
    simp [begin, Process.withObject, Dispatch_Controller.new, State.enter, State.emit,
      State.toProcess, initializeFaultPins, SoftTimer_add, List.count_cons]
  · exact hset _ _ hptr
  · intro n
    rw [hmany n]
    refine ⟨hptr, ?_, rfl⟩
    rw [hfirst]; rfl

/-- C15 at a concrete input: three accesses from a process without a
coordinator construct one and begin it once. -/
theorem getInstance_lazy_singleton_witness :
    Process.start.instancePtr = none ∧
    (getInstance Process.start).1 = { begun := true, enabled := false } ∧
    (getInstanceTimes 3 Process.start).constructions = 1 ∧
    (getInstanceTimes 3 Process.start).calls = [.begin] :=
  ⟨rfl, ((getInstance_lazy_singleton Process.start).2.1 rfl).2.1,
    (((getInstance_lazy_singleton Process.start).2.1 rfl).2.2.2.2.2.2.2 2).2.1, by decide⟩

/-! ## Polls without a transition, and the shape of the fault log -/

/-- C16: a poll whose computed `hasFault` equals the persisted one has no side
effect beyond fault logging. It writes no frame, enters neither `enable` nor
`disable`, makes no scheduler call and leaves the scheduler, `enabled` and the
store as they were; its collaborator calls are the fault log, one event for each
asserted line, and the store write of the same value. -/
theorem handleFaultPins_no_change (k : Constants) (dr : Pin → Int) (s : State)
    (hsame : anyAsserted dr = s.store.hasFault) :
    framesWritten ((handleFaultPins k dr s).emittedSince s) = [] ∧
    (handleFaultPins k dr s).enteredSince s = [.handleFaultPins] ∧
    Method.enable ∉ (handleFaultPins k dr s).enteredSince s ∧
    Method.disable ∉ (handleFaultPins k dr s).enteredSince s ∧
    ((handleFaultPins k dr s).emittedSince s).filter Event.isTimerCall = [] ∧
    (handleFaultPins k dr s).timer = s.timer ∧
    (handleFaultPins k dr s).dc.enabled = s.dc.enabled ∧
    (handleFaultPins k dr s).store = s.store ∧
    (handleFaultPins k dr s).emittedSince s =
      faultLog dr ++ [.logHasFault s.store.hasFault] := by
  have hbranch1 : (anyAsserted dr && !s.store.hasFault) = false := by
    rw [hsame]; cases s.store.hasFault <;> rfl
  have hbranch2 : (!anyAsserted dr && s.store.hasFault) = false := by
    rw [hsame]; cases s.store.hasFault <;> rfl
  have hstate := handleFaultPins_no_change_state k dr s hsame
  have hentered : (handleFaultPins k dr s).enteredSince s = [.handleFaultPins] := by
    rw [enteredSince_handleFaultPins, hbranch1]; rfl
  have hemitted : (handleFaultPins k dr s).emittedSince s =
      faultLog dr ++ [.logHasFault s.store.hasFault] := by
    rw [emittedSince_handleFaultPins, hbranch1, hbranch2, hsame]; rfl
  refine ⟨?_, hentered, ?_, ?_, ?_, hstate.1, ?_, hstate.2.2, hemitted⟩
  · rw [framesWritten_handleFaultPins, hbranch1]; rfl
  · rw [hentered]; decide
  · rw [hentered]; decide
  · rw [hemitted, List.filter_append, timerCalls_faultLog]; rfl
  · rw [hstate.2.1]

/-- C16 at the scenario of the specification: all five lines clear, the vehicle
Enabled, no fault latched. The flag stays false, no frame is written and the
vehicle is still Enabled. -/
theorem handleFaultPins_no_change_witness :
    anyAsserted allClear = State.driving.store.hasFault ∧
    isEnabled State.driving = true ∧
    (handleFaultPins Constants.sample allClear State.driving).store.hasFault = false ∧
    framesWritten ((handleFaultPins Constants.sample allClear State.driving).emittedSince
      State.driving) = [] ∧
    isEnabled (handleFaultPins Constants.sample allClear State.driving) = true ∧
    (handleFaultPins Constants.sample allClear State.driving).emittedSince State.driving =
      [.logHasFault false] :=
  ⟨by decide, rfl, by decide,
    (handleFaultPins_no_change Constants.sample allClear State.driving (by decide)).1,
    by decide,
    (handleFaultPins_no_change Constants.sample allClear State.driving
      (by decide)).2.2.2.2.2.2.2.2⟩

/-- C17: `enable()` does not look at the fault latch. On a Disabled coordinator
with the fault latched it sets `enabled` and makes the same collaborator calls
as with no fault latched; a following poll with a line still asserted leaves
the vehicle Enabled with the fault latched. "Enabled and `hasFault` true" is
reached from a fresh coordinator by begin, a poll with a fault, `enable()`. -/
theorem enable_ignores_fault_latch (k : Constants) (dr : Pin → Int) (s : State)
    (hdis : s.dc.enabled = false) (hlatched : s.store.hasFault = true)
    (hstill : anyAsserted dr = true) :
    isEnabled (enable k s) = true ∧
    (enable k s).emittedSince s =
      [.RTD_enable,
       .CAN_write { id := k.VCU_ID, body := [ENABLE_LIGHT], len := 1 },
       .requestPermanentUpdates k.RIGHT_MOTOR_REQUEST_ID,
       .requestPermanentUpdates k.LEFT_MOTOR_REQUEST_ID,
       .logOne .Computer "vehicle_enabled",
       .logOne .Onboard "vehicle_enabled"] ∧
    (enable k s).emittedSince s =
      (enable k { s with store := { s.store with hasFault := false } }).emittedSince
        { s with store := { s.store with hasFault := false } } ∧
    (enable k s).store.hasFault = true ∧
    isEnabled (handleFaultPins k dr (enable k s)) = true ∧
    (handleFaultPins k dr (enable k s)).store.hasFault = true ∧
    (isEnabled (run k [.begin, .handleFaultPins stopPressed, .enable] State.fresh) = true ∧
      (run k [.begin, .handleFaultPins stopPressed, .enable] State.fresh).store.hasFault =
        true) := by
  have hen : (enable k s).dc.enabled = true := by
    simp [enable, State.enter, State.emit, CAN_write, requestRightMotorUpdates,
      requestLeftMotorUpdates, hdis]
  have hst : (enable k s).store = s.store := by
    simp [enable, State.enter, State.emit, CAN_write, requestRightMotorUpdates,
      requestLeftMotorUpdates, hdis]
  have hsame : anyAsserted dr = (enable k s).store.hasFault := by
    rw [hst, hlatched, hstill]
  have hkeep := handleFaultPins_no_change_state k dr (enable k s) hsame
  refine ⟨hen, ?_, ?_, ?_, ?_, ?_, ?_, ?_⟩
  · simp [enable, State.enter, State.emit, State.emittedSince, CAN_write,
      requestRightMotorUpdates, requestLeftMotorUpdates, hdis]
  · simp [enable, State.enter, State.emit, State.emittedSince, CAN_write,
      requestRightMotorUpdates, requestLeftMotorUpdates, hdis]
  · rw [hst, hlatched]
  · show (handleFaultPins k dr (enable k s)).dc.enabled = true
    rw [hkeep.2.1, hen]
  · rw [hkeep.2.2, hst, hlatched]
  · rfl
  · rfl

/-- C17 at a concrete input: the latched, Disabled coordinator is enabled and
then polled with the stop button still asserted. -/
theorem enable_ignores_fault_latch_witness :
    State.latched.dc.enabled = false ∧ State.latched.store.hasFault = true ∧
    anyAsserted stopPressed = true ∧
    isEnabled (handleFaultPins Constants.sample stopPressed
      (enable Constants.sample State.latched)) = true ∧
    (handleFaultPins Constants.sample stopPressed
      (enable Constants.sample State.latched)).store.hasFault = true :=
  ⟨rfl, rfl, by decide,
    (enable_ignores_fault_latch Constants.sample stopPressed State.latched rfl rfl
      (by decide)).2.2.2.2.1,
    (enable_ignores_fault_latch Constants.sample stopPressed State.latched rfl rfl
      (by decide)).2.2.2.2.2.1⟩

/-- C18: per-line fault logging. `handleSingleFaultPin` reports a line as
asserted exactly when its read is `LOW`. Whatever the five readings, a poll
reads all five lines, in the order BMS, IMD, TEMP_SENSE, STOP_BUTTON,
BMS_POWERED, and its two-field log events are one "LATCHED_FAULT" event to the
onboard sink for each asserted line and none for a clear line, naming the line,
in that order. -/
theorem handleFaultPins_logs_each_asserted_line (k : Constants) (dr : Pin → Int) (s : State) :
    (∀ (pin : Pin) (pinName : String) (t : State),
      ((handleSingleFaultPin dr pin pinName t).1 = true ↔ dr pin = LOW) ∧
      (handleSingleFaultPin dr pin pinName t).2.readSince t = [pin] ∧
      (handleSingleFaultPin dr pin pinName t).2.emittedSince t =
        if dr pin = LOW then [.logTwo .Onboard "LATCHED_FAULT" pinName] else []) ∧
    (handleFaultPins k dr s).readSince s =
      [.BMS_IN, .IMD_IN, .TEMP_SENSE_IN, .STOP_BUTTON_IN, .BMS_POWERED_IN] ∧
    ((handleFaultPins k dr s).emittedSince s).filter Event.isLogTwo =
      (if dr .BMS_IN = LOW then
        [Event.logTwo .Onboard "LATCHED_FAULT" "BMS"] else []) ++
      (if dr .IMD_IN = LOW then
        [Event.logTwo .Onboard "LATCHED_FAULT" "IMD"] else []) ++
      (if dr .TEMP_SENSE_IN = LOW then
        [Event.logTwo .Onboard "LATCHED_FAULT" "TEMP_SENSE"] else []) ++
      (if dr .STOP_BUTTON_IN = LOW then
        [Event.logTwo .Onboard "LATCHED_FAULT" "STOP_BUTTON"] else []) ++
      (if dr .BMS_POWERED_IN = LOW then
        [Event.logTwo .Onboard "LATCHED_FAULT" "BMS_NOT_POWERED"] else []) := by
  refine ⟨?_, ?_, ?_⟩
  · intro pin pinName t
    refine ⟨?_, ?_, ?_⟩
    · rw [handleSingleFaultPin_fst]
      simp [asserted]
    · rw [handleSingleFaultPin_snd]
      simp [State.readSince]
    · rw [handleSingleFaultPin_snd]
      by_cases h : dr pin = LOW <;> simp [State.emittedSince, asserted, h]
  · rw [handleFaultPins_eq]
    cases h1 : anyAsserted dr <;> cases h2 : s.store.hasFault <;> cases h3 : s.dc.enabled <;>
      simp [Store_logHasFault, State.emit, State.readSince, SoftTimer_remove, SoftTimer_add,
        DelayRun_startDelayed, CAN_write, disable, pollPins, h3, State.enter]
  · have hlog : (faultLog dr).filter Event.isLogTwo =
        (if dr .BMS_IN = LOW then
          [Event.logTwo .Onboard "LATCHED_FAULT" "BMS"] else []) ++
        (if dr .IMD_IN = LOW then
          [Event.logTwo .Onboard "LATCHED_FAULT" "IMD"] else []) ++
        (if dr .TEMP_SENSE_IN = LOW then
          [Event.logTwo .Onboard "LATCHED_FAULT" "TEMP_SENSE"] else []) ++
        (if dr .STOP_BUTTON_IN = LOW then
          [Event.logTwo .Onboard "LATCHED_FAULT" "STOP_BUTTON"] else []) ++
        (if dr .BMS_POWERED_IN = LOW then
          [Event.logTwo .Onboard "LATCHED_FAULT" "BMS_NOT_POWERED"] else []) := by
      rw [filter_isLogTwo_faultLog]
      simp [faultLog, asserted]
    rw [emittedSince_handleFaultPins, List.filter_append, hlog]
    cases h1 : anyAsserted dr <;> cases h2 : s.store.hasFault <;> cases h3 : s.dc.enabled <;>
      simp [Event.isLogTwo]

/-- C18 at a concrete input: only the stop button line reads `LOW`; the poll
reads all five lines and logs that one line. -/
theorem handleFaultPins_logs_each_asserted_line_witness :
    (handleFaultPins Constants.sample stopPressed State.driving).readSince State.driving =
      [.BMS_IN, .IMD_IN, .TEMP_SENSE_IN, .STOP_BUTTON_IN, .BMS_POWERED_IN] ∧
    ((handleFaultPins Constants.sample stopPressed State.driving).emittedSince
      State.driving).filter Event.isLogTwo =
      [.logTwo .Onboard "LATCHED_FAULT" "STOP_BUTTON"] :=
  ⟨(handleFaultPins_logs_each_asserted_line Constants.sample stopPressed State.driving).2.1,
    (handleFaultPins_logs_each_asserted_line Constants.sample stopPressed
      State.driving).2.2⟩

/-- C19: the frames of a false-to-true transition depend on the prior enabled
state. From Enabled the poll writes two frames, BLINK (payload 0, inside
`disable()`) and then SHUTDOWN (payload 2), so the last frame is SHUTDOWN. From
Disabled it writes the SHUTDOWN frame only, with no ready-to-drive disable
command and no "vehicle_disabled_or_shutdown" log event. -/
theorem handleFaultPins_shutdown_frames (k : Constants) (dr : Pin → Int) (s : State)
    (hprev : s.store.hasFault = false) (hnow : anyAsserted dr = true) :
    (s.dc.enabled = true →
      framesWritten ((handleFaultPins k dr s).emittedSince s) =
        [{ id := k.VCU_ID, body := [0], len := 1 }, { id := k.VCU_ID, body := [2], len := 1 }] ∧
      (framesWritten ((handleFaultPins k dr s).emittedSince s)).getLast? =
        some { id := k.VCU_ID, body := [SHUTDOWN_LIGHT], len := 1 } ∧
      (handleFaultPins k dr s).emittedSince s =
        faultLog dr ++
          [.RTD_disable,
           .CAN_write { id := k.VCU_ID, body := [BLINK_LIGHT], len := 1 },
           .logOne .Computer "vehicle_disabled_or_shutdown",
           .logOne .Onboard "vehicle_disabled_or_shutdown",
           .CAN_write { id := k.VCU_ID, body := [SHUTDOWN_LIGHT], len := 1 },
           .SoftTimer_remove .requestBlinkDashLight,
           .logHasFault true]) ∧
    (s.dc.enabled = false →
      framesWritten ((handleFaultPins k dr s).emittedSince s) =
        [{ id := k.VCU_ID, body := [2], len := 1 }] ∧
      (handleFaultPins k dr s).emittedSince s =
        faultLog dr ++
          [.CAN_write { id := k.VCU_ID, body := [SHUTDOWN_LIGHT], len := 1 },
           .SoftTimer_remove .requestBlinkDashLight,
           .logHasFault true] ∧
      Event.RTD_disable ∉ (handleFaultPins k dr s).emittedSince s ∧
      ∀ sink, Event.logOne sink "vehicle_disabled_or_shutdown" ∉
        (handleFaultPins k dr s).emittedSince s) := by
  have hbranch : (anyAsserted dr && !s.store.hasFault) = true := by
    rw [hprev, hnow]; rfl
  constructor
  · intro hen
    have hframes : framesWritten ((handleFaultPins k dr s).emittedSince s) =
        [{ id := k.VCU_ID, body := [0], len := 1 }, { id := k.VCU_ID, body := [2], len := 1 }] := by
      rw [framesWritten_handleFaultPins, hbranch]
      simp [hen, BLINK_LIGHT, SHUTDOWN_LIGHT]
    refine ⟨hframes, ?_, ?_⟩
    · rw [hframes]; rfl
    · rw [emittedSince_handleFaultPins, hbranch]
      simp [hen, hnow]
  · intro hdis
    have hemitted : (handleFaultPins k dr s).emittedSince s =
        faultLog dr ++
          [.CAN_write { id := k.VCU_ID, body := [SHUTDOWN_LIGHT], len := 1 },
           .SoftTimer_remove .requestBlinkDashLight,
           .logHasFault true] := by
      rw [emittedSince_handleFaultPins, hbranch]
      simp [hdis, hnow]
    refine ⟨?_, hemitted, ?_, ?_⟩
    · rw [framesWritten_handleFaultPins, hbranch]
      simp [hdis, SHUTDOWN_LIGHT]
    · rw [hemitted]
      intro hmem
      rcases List.mem_append.mp hmem with h | h
      · exact absurd (isLogTwo_of_mem_faultLog dr _ h) (by decide)
      · simp at h
    · intro sink
      rw [hemitted]
      intro hmem
      rcases List.mem_append.mp hmem with h | h
      · have h2 := isLogTwo_of_mem_faultLog dr _ h
        simp [Event.isLogTwo] at h2
      · simp at h

/-- C19 at concrete inputs: the stop button is asserted on an Enabled vehicle
and on a fresh, Disabled one. -/
theorem handleFaultPins_shutdown_frames_witness :
    State.driving.store.hasFault = false ∧ anyAsserted stopPressed = true ∧
    framesWritten ((handleFaultPins Constants.sample stopPressed State.driving).emittedSince
      State.driving) =
      [{ id := 80, body := [0], len := 1 }, { id := 80, body := [2], len := 1 }] ∧
    framesWritten ((handleFaultPins Constants.sample stopPressed State.fresh).emittedSince
      State.fresh) = [{ id := 80, body := [2], len := 1 }] :=
  ⟨rfl, by decide,
    ((handleFaultPins_shutdown_frames Constants.sample stopPressed State.driving rfl
      (by decide)).1 rfl).1,
    ((handleFaultPins_shutdown_frames Constants.sample stopPressed State.fresh rfl
      (by decide)).2 rfl).1⟩

end MY17
